import Mathlib

/-! Verification of `routesia/netlink/constants.c`.

The extension module `constants` registers one integer attribute per kernel
identifier with `PyModule_AddIntMacro(m, X)`, which expands to
`PyModule_AddIntConstant(m, "X", X)`.  What the module ends up holding depends on
three things the C file does not fix by itself:

* the kernel headers it is compiled against (`Headers`): which identifiers are
  declared, whether as preprocessor macros or as enumerators, and their values;
* the width of the C type `long` on the target, to which every value is
  converted when it is passed to `PyModule_AddIntConstant`;
* the outcome of the C API calls when the module is loaded (`Runtime`).

The embedding below makes the three explicit.
-/

namespace Routesia

/-- How a header declares an identifier: with `#define` (visible to `#ifdef`) or
as an enumerator of an `enum` (invisible to `#ifdef`).  The integer is the value
of the identifier as a C expression.  An enumerator that the header also
re-defines as a macro of the same name (`#define X X`) is a `define`. -/
inductive Decl where
  | define (value : Int)
  | enumerator (value : Int)
deriving DecidableEq

/-- Value of a declared identifier. -/
def Decl.value : Decl → Int
  | .define v => v
  | .enumerator v => v

/-- Whether the declaration is a preprocessor macro. -/
def Decl.isDefine : Decl → Bool
  | .define _ => true
  | .enumerator _ => false

/-- A set of kernel headers, as far as this file can observe it: the declaration, if
any, of each identifier after `#include <linux/netlink.h>` and
`#include <linux/rtnetlink.h>`. -/
abbrev Headers := String → Option Decl

/-- Header set given by a table of declarations. -/
def Headers.ofList (l : List (String × Decl)) : Headers := fun X => l.lookup X

/-- Value the headers give an identifier (0 when they do not declare it; the
compiler never asks for it in that case). -/
def Headers.value (H : Headers) (X : String) : Int :=
  match H X with
  | some d => d.value
  | none => 0

/-- The same headers with the identifiers of `xs` not declared. -/
def Headers.without (H : Headers) (xs : List String) : Headers :=
  fun X => if X ∈ xs then none else H X

/-- A line (or guarded block of lines) of the body of `PyInit_constants`. -/
inductive Item where
  /-- The statement `PyModule_AddIntMacro(m, name);`. -/
  | addIntMacro (name : String)
  /-- The block `#ifdef guard` ... `#endif` holding one
  `PyModule_AddIntMacro(m, n);` for each `n` of `body`. -/
  | ifdef (guard : String) (body : List String)
deriving DecidableEq

/-- Identifiers an item registers when all of it is compiled. -/
def Item.names : Item → List String
  | .addIntMacro n => [n]
  | .ifdef _ body => body

/-- Guard macro of an item, if it is a guarded block. -/
def Item.guard? : Item → Option String
  | .addIntMacro _ => none
  | .ifdef g _ => some g

/-- Identifiers an item registers under a guard. -/
def Item.guarded : Item → List String
  | .addIntMacro _ => []
  | .ifdef _ body => body

/-- Section `/* Netlink types */`. -/
def sec_Netlink_types : List Item := [
  Item.addIntMacro "NETLINK_ROUTE",
  Item.addIntMacro "NETLINK_UNUSED",
  Item.addIntMacro "NETLINK_USERSOCK",
  Item.addIntMacro "NETLINK_FIREWALL",
  Item.addIntMacro "NETLINK_SOCK_DIAG",
  Item.addIntMacro "NETLINK_NFLOG",
  Item.addIntMacro "NETLINK_XFRM",
  Item.addIntMacro "NETLINK_SELINUX",
  Item.addIntMacro "NETLINK_ISCSI",
  Item.addIntMacro "NETLINK_AUDIT",
  Item.addIntMacro "NETLINK_FIB_LOOKUP",
  Item.addIntMacro "NETLINK_CONNECTOR",
  Item.addIntMacro "NETLINK_NETFILTER",
  Item.addIntMacro "NETLINK_IP6_FW",
  Item.addIntMacro "NETLINK_DNRTMSG",
  Item.addIntMacro "NETLINK_KOBJECT_UEVENT",
  Item.addIntMacro "NETLINK_GENERIC",
  Item.addIntMacro "NETLINK_SCSITRANSPORT",
  Item.addIntMacro "NETLINK_ECRYPTFS",
  Item.addIntMacro "NETLINK_RDMA",
  Item.addIntMacro "NETLINK_CRYPTO",
  Item.addIntMacro "NETLINK_SMC",
  Item.addIntMacro "NETLINK_INET_DIAG"
]

/-- Section `/* Flags for nlmsghdr nlmsg_flags */`. -/
def sec_Flags_for_nlmsghdr_nlmsg_flags : List Item := [
  Item.addIntMacro "NLM_F_REQUEST",
  Item.addIntMacro "NLM_F_MULTI",
  Item.addIntMacro "NLM_F_ACK",
  Item.addIntMacro "NLM_F_ECHO",
  Item.addIntMacro "NLM_F_DUMP_INTR",
  Item.addIntMacro "NLM_F_DUMP_FILTERED",
  Item.addIntMacro "NLM_F_ROOT",
  Item.addIntMacro "NLM_F_MATCH",
  Item.addIntMacro "NLM_F_ATOMIC",
  Item.addIntMacro "NLM_F_DUMP",
  Item.addIntMacro "NLM_F_REPLACE",
  Item.addIntMacro "NLM_F_EXCL",
  Item.addIntMacro "NLM_F_CREATE",
  Item.addIntMacro "NLM_F_APPEND",
  Item.addIntMacro "NLM_F_NONREC",
  Item.ifdef "NLM_F_BULK" ["NLM_F_BULK"],
  Item.addIntMacro "NLM_F_CAPPED",
  Item.addIntMacro "NLM_F_ACK_TLVS"
]

/-- Section `/* Base types for nlmsghdr nlmsg_type */`. -/
def sec_Base_types_for_nlmsghdr_nlmsg_type : List Item := [
  Item.addIntMacro "NLMSG_NOOP",
  Item.addIntMacro "NLMSG_ERROR",
  Item.addIntMacro "NLMSG_DONE",
  Item.addIntMacro "NLMSG_OVERRUN"
]

/-- Section `/* nlmsgerr attribute types */`. -/
def sec_nlmsgerr_attribute_types : List Item := [
  Item.addIntMacro "NLMSGERR_ATTR_UNUSED",
  Item.addIntMacro "NLMSGERR_ATTR_MSG",
  Item.addIntMacro "NLMSGERR_ATTR_OFFS",
  Item.addIntMacro "NLMSGERR_ATTR_COOKIE",
  Item.addIntMacro "NLMSGERR_ATTR_POLICY",
  Item.ifdef "NLMSGERR_ATTR_MISS_TYPE" ["NLMSGERR_ATTR_MISS_TYPE"],
  Item.ifdef "NLMSGERR_ATTR_MISS_NEST" ["NLMSGERR_ATTR_MISS_NEST"]
]

/-- Section `/* Netlink socket options */`. -/
def sec_Netlink_socket_options : List Item := [
  Item.addIntMacro "NETLINK_ADD_MEMBERSHIP",
  Item.addIntMacro "NETLINK_DROP_MEMBERSHIP",
  Item.addIntMacro "NETLINK_PKTINFO",
  Item.addIntMacro "NETLINK_BROADCAST_ERROR",
  Item.addIntMacro "NETLINK_NO_ENOBUFS",
  Item.addIntMacro "NETLINK_RX_RING",
  Item.addIntMacro "NETLINK_TX_RING",
  Item.addIntMacro "NETLINK_LISTEN_ALL_NSID",
  Item.addIntMacro "NETLINK_LIST_MEMBERSHIPS",
  Item.addIntMacro "NETLINK_CAP_ACK",
  Item.addIntMacro "NETLINK_EXT_ACK",
  Item.addIntMacro "NETLINK_GET_STRICT_CHK"
]

/-- Section `/* Netlink attribute flags for nla_type in nlattr */`. -/
def sec_Netlink_attribute_flags_for_nla_type_in_nlattr : List Item := [
  Item.addIntMacro "NLA_F_NESTED",
  Item.addIntMacro "NLA_F_NET_BYTEORDER",
  Item.addIntMacro "NLA_TYPE_MASK"
]

/-- Section `/* nlattr attributes types */`. -/
def sec_nlattr_attributes_types : List Item := [
  Item.addIntMacro "NL_ATTR_TYPE_INVALID",
  Item.addIntMacro "NL_ATTR_TYPE_FLAG",
  Item.addIntMacro "NL_ATTR_TYPE_U8",
  Item.addIntMacro "NL_ATTR_TYPE_U16",
  Item.addIntMacro "NL_ATTR_TYPE_U32",
  Item.addIntMacro "NL_ATTR_TYPE_U64",
  Item.addIntMacro "NL_ATTR_TYPE_S8",
  Item.addIntMacro "NL_ATTR_TYPE_S16",
  Item.addIntMacro "NL_ATTR_TYPE_S32",
  Item.addIntMacro "NL_ATTR_TYPE_S64",
  Item.addIntMacro "NL_ATTR_TYPE_BINARY",
  Item.addIntMacro "NL_ATTR_TYPE_STRING",
  Item.addIntMacro "NL_ATTR_TYPE_NUL_STRING",
  Item.addIntMacro "NL_ATTR_TYPE_NESTED",
  Item.addIntMacro "NL_ATTR_TYPE_NESTED_ARRAY",
  Item.addIntMacro "NL_ATTR_TYPE_BITFIELD32",
  Item.ifdef "NL_ATTR_TYPE_SINT" ["NL_ATTR_TYPE_SINT"],
  Item.ifdef "NL_ATTR_TYPE_UINT" ["NL_ATTR_TYPE_UINT"]
]

/-- Section `/* nlattr policy type attributes */`. -/
def sec_nlattr_policy_type_attributes : List Item := [
  Item.addIntMacro "NL_POLICY_TYPE_ATTR_UNSPEC",
  Item.addIntMacro "NL_POLICY_TYPE_ATTR_TYPE",
  Item.addIntMacro "NL_POLICY_TYPE_ATTR_MIN_VALUE_S",
  Item.addIntMacro "NL_POLICY_TYPE_ATTR_MAX_VALUE_S",
  Item.addIntMacro "NL_POLICY_TYPE_ATTR_MIN_VALUE_U",
  Item.addIntMacro "NL_POLICY_TYPE_ATTR_MAX_VALUE_U",
  Item.addIntMacro "NL_POLICY_TYPE_ATTR_MIN_LENGTH",
  Item.addIntMacro "NL_POLICY_TYPE_ATTR_MAX_LENGTH",
  Item.addIntMacro "NL_POLICY_TYPE_ATTR_POLICY_IDX",
  Item.addIntMacro "NL_POLICY_TYPE_ATTR_POLICY_MAXTYPE",
  Item.addIntMacro "NL_POLICY_TYPE_ATTR_BITFIELD32_MASK",
  Item.addIntMacro "NL_POLICY_TYPE_ATTR_PAD",
  Item.addIntMacro "NL_POLICY_TYPE_ATTR_MASK"
]

/-- Section `/* rtnetlink message types for nlmsghdr nlmsg_type */`. -/
def sec_rtnetlink_message_types_for_nlmsghdr_nlmsg_type : List Item := [
  Item.addIntMacro "RTM_NEWLINK",
  Item.addIntMacro "RTM_DELLINK",
  Item.addIntMacro "RTM_GETLINK",
  Item.addIntMacro "RTM_SETLINK",
  Item.addIntMacro "RTM_NEWADDR",
  Item.addIntMacro "RTM_DELADDR",
  Item.addIntMacro "RTM_GETADDR",
  Item.addIntMacro "RTM_NEWROUTE",
  Item.addIntMacro "RTM_DELROUTE",
  Item.addIntMacro "RTM_GETROUTE",
  Item.addIntMacro "RTM_NEWNEIGH",
  Item.addIntMacro "RTM_DELNEIGH",
  Item.addIntMacro "RTM_GETNEIGH",
  Item.addIntMacro "RTM_NEWRULE",
  Item.addIntMacro "RTM_DELRULE",
  Item.addIntMacro "RTM_GETRULE",
  Item.addIntMacro "RTM_NEWQDISC",
  Item.addIntMacro "RTM_DELQDISC",
  Item.addIntMacro "RTM_GETQDISC",
  Item.addIntMacro "RTM_NEWTCLASS",
  Item.addIntMacro "RTM_DELTCLASS",
  Item.addIntMacro "RTM_GETTCLASS",
  Item.addIntMacro "RTM_NEWTFILTER",
  Item.addIntMacro "RTM_DELTFILTER",
  Item.addIntMacro "RTM_GETTFILTER",
  Item.addIntMacro "RTM_NEWACTION",
  Item.addIntMacro "RTM_DELACTION",
  Item.addIntMacro "RTM_GETACTION",
  Item.addIntMacro "RTM_NEWPREFIX",
  Item.addIntMacro "RTM_GETMULTICAST",
  Item.addIntMacro "RTM_GETANYCAST",
  Item.addIntMacro "RTM_NEWNEIGHTBL",
  Item.addIntMacro "RTM_GETNEIGHTBL",
  Item.addIntMacro "RTM_SETNEIGHTBL",
  Item.addIntMacro "RTM_NEWNDUSEROPT",
  Item.addIntMacro "RTM_NEWADDRLABEL",
  Item.addIntMacro "RTM_DELADDRLABEL",
  Item.addIntMacro "RTM_GETADDRLABEL",
  Item.addIntMacro "RTM_GETDCB",
  Item.addIntMacro "RTM_SETDCB",
  Item.addIntMacro "RTM_NEWNETCONF",
  Item.addIntMacro "RTM_DELNETCONF",
  Item.addIntMacro "RTM_GETNETCONF",
  Item.addIntMacro "RTM_NEWMDB",
  Item.addIntMacro "RTM_DELMDB",
  Item.addIntMacro "RTM_GETMDB",
  Item.addIntMacro "RTM_NEWNSID",
  Item.addIntMacro "RTM_DELNSID",
  Item.addIntMacro "RTM_GETNSID",
  Item.addIntMacro "RTM_NEWSTATS",
  Item.addIntMacro "RTM_GETSTATS",
  Item.ifdef "RTM_SETSTATS" ["RTM_SETSTATS"],
  Item.addIntMacro "RTM_NEWCACHEREPORT",
  Item.addIntMacro "RTM_NEWCHAIN",
  Item.addIntMacro "RTM_DELCHAIN",
  Item.addIntMacro "RTM_GETCHAIN",
  Item.addIntMacro "RTM_NEWNEXTHOP",
  Item.addIntMacro "RTM_DELNEXTHOP",
  Item.addIntMacro "RTM_GETNEXTHOP",
  Item.addIntMacro "RTM_NEWLINKPROP",
  Item.addIntMacro "RTM_DELLINKPROP",
  Item.addIntMacro "RTM_GETLINKPROP",
  Item.addIntMacro "RTM_NEWNVLAN",
  Item.addIntMacro "RTM_DELVLAN",
  Item.addIntMacro "RTM_GETVLAN",
  Item.addIntMacro "RTM_NEWNEXTHOPBUCKET",
  Item.addIntMacro "RTM_DELNEXTHOPBUCKET",
  Item.addIntMacro "RTM_GETNEXTHOPBUCKET",
  Item.ifdef "RTM_NEWTUNNEL" ["RTM_NEWTUNNEL", "RTM_DELTUNNEL", "RTM_GETTUNNEL"]
]

/-- Section `/* Route types for rtmsg rtm_type */`. -/
def sec_Route_types_for_rtmsg_rtm_type : List Item := [
  Item.addIntMacro "RTN_UNSPEC",
  Item.addIntMacro "RTN_UNICAST",
  Item.addIntMacro "RTN_LOCAL",
  Item.addIntMacro "RTN_BROADCAST",
  Item.addIntMacro "RTN_ANYCAST",
  Item.addIntMacro "RTN_MULTICAST",
  Item.addIntMacro "RTN_BLACKHOLE",
  Item.addIntMacro "RTN_UNREACHABLE",
  Item.addIntMacro "RTN_PROHIBIT",
  Item.addIntMacro "RTN_THROW",
  Item.addIntMacro "RTN_NAT",
  Item.addIntMacro "RTN_XRESOLVE"
]

/-- Section `/* Base protocols for rtmsg rtm_protocol */`. -/
def sec_Base_protocols_for_rtmsg_rtm_protocol : List Item := [
  Item.addIntMacro "RTPROT_UNSPEC",
  Item.addIntMacro "RTPROT_REDIRECT",
  Item.addIntMacro "RTPROT_KERNEL",
  Item.addIntMacro "RTPROT_BOOT",
  Item.addIntMacro "RTPROT_STATIC",
  Item.addIntMacro "RTPROT_GATED",
  Item.addIntMacro "RTPROT_RA",
  Item.addIntMacro "RTPROT_MRT",
  Item.addIntMacro "RTPROT_ZEBRA",
  Item.addIntMacro "RTPROT_BIRD",
  Item.addIntMacro "RTPROT_DNROUTED",
  Item.addIntMacro "RTPROT_XORP",
  Item.addIntMacro "RTPROT_NTK",
  Item.addIntMacro "RTPROT_DHCP",
  Item.addIntMacro "RTPROT_MROUTED",
  Item.addIntMacro "RTPROT_KEEPALIVED",
  Item.addIntMacro "RTPROT_BABEL",
  Item.addIntMacro "RTPROT_OPENR",
  Item.addIntMacro "RTPROT_BGP",
  Item.addIntMacro "RTPROT_ISIS",
  Item.addIntMacro "RTPROT_OSPF",
  Item.addIntMacro "RTPROT_RIP",
  Item.addIntMacro "RTPROT_EIGRP"
]

/-- Section `/* Scopes for rtmsg rtm_scope */`. -/
def sec_Scopes_for_rtmsg_rtm_scope : List Item := [
  Item.addIntMacro "RT_SCOPE_UNIVERSE",
  Item.addIntMacro "RT_SCOPE_SITE",
  Item.addIntMacro "RT_SCOPE_LINK",
  Item.addIntMacro "RT_SCOPE_HOST",
  Item.addIntMacro "RT_SCOPE_NOWHERE"
]

/-- Section `/* Flags for rtmsg rtm_flags */`. -/
def sec_Flags_for_rtmsg_rtm_flags : List Item := [
  Item.addIntMacro "RTM_F_NOTIFY",
  Item.addIntMacro "RTM_F_CLONED",
  Item.addIntMacro "RTM_F_EQUALIZE",
  Item.addIntMacro "RTM_F_PREFIX",
  Item.addIntMacro "RTM_F_LOOKUP_TABLE",
  Item.addIntMacro "RTM_F_FIB_MATCH",
  Item.addIntMacro "RTM_F_OFFLOAD",
  Item.addIntMacro "RTM_F_TRAP",
  Item.addIntMacro "RTM_F_OFFLOAD_FAILED"
]

/-- Section `/* Reserved tables for rtmsg rtm_table */`. -/
def sec_Reserved_tables_for_rtmsg_rtm_table : List Item := [
  Item.addIntMacro "RT_TABLE_UNSPEC",
  Item.addIntMacro "RT_TABLE_COMPAT",
  Item.addIntMacro "RT_TABLE_DEFAULT",
  Item.addIntMacro "RT_TABLE_MAIN",
  Item.addIntMacro "RT_TABLE_LOCAL",
  Item.addIntMacro "RT_TABLE_MAX"
]

/-- Section `/* rtmsg attributes */`. -/
def sec_rtmsg_attributes : List Item := [
  Item.addIntMacro "RTA_UNSPEC",
  Item.addIntMacro "RTA_DST",
  Item.addIntMacro "RTA_SRC",
  Item.addIntMacro "RTA_IIF",
  Item.addIntMacro "RTA_OIF",
  Item.addIntMacro "RTA_GATEWAY",
  Item.addIntMacro "RTA_PRIORITY",
  Item.addIntMacro "RTA_PREFSRC",
  Item.addIntMacro "RTA_METRICS",
  Item.addIntMacro "RTA_MULTIPATH",
  Item.addIntMacro "RTA_PROTOINFO",
  Item.addIntMacro "RTA_FLOW",
  Item.addIntMacro "RTA_CACHEINFO",
  Item.addIntMacro "RTA_SESSION",
  Item.addIntMacro "RTA_MP_ALGO",
  Item.addIntMacro "RTA_TABLE",
  Item.addIntMacro "RTA_MARK",
  Item.addIntMacro "RTA_MFC_STATS",
  Item.addIntMacro "RTA_VIA",
  Item.addIntMacro "RTA_NEWDST",
  Item.addIntMacro "RTA_PREF",
  Item.addIntMacro "RTA_ENCAP_TYPE",
  Item.addIntMacro "RTA_ENCAP",
  Item.addIntMacro "RTA_EXPIRES",
  Item.addIntMacro "RTA_PAD",
  Item.addIntMacro "RTA_UID",
  Item.addIntMacro "RTA_TTL_PROPAGATE",
  Item.addIntMacro "RTA_IP_PROTO",
  Item.addIntMacro "RTA_SPORT",
  Item.addIntMacro "RTA_DPORT",
  Item.addIntMacro "RTA_NH_ID"
]

/-- Section `/* Flags for rtnexthop rtnh_flags */`. -/
def sec_Flags_for_rtnexthop_rtnh_flags : List Item := [
  Item.addIntMacro "RTNH_F_DEAD",
  Item.addIntMacro "RTNH_F_PERVASIVE",
  Item.addIntMacro "RTNH_F_ONLINK",
  Item.addIntMacro "RTNH_F_OFFLOAD",
  Item.addIntMacro "RTNH_F_LINKDOWN",
  Item.addIntMacro "RTNH_F_UNRESOLVED",
  Item.addIntMacro "RTNH_F_TRAP",
  Item.addIntMacro "RTNH_COMPARE_MASK"
]

/-- Section `/* RTA_METRICS sub-attributes */`. -/
def sec_RTA_METRICS_sub_attributes : List Item := [
  Item.addIntMacro "RTAX_UNSPEC",
  Item.addIntMacro "RTAX_LOCK",
  Item.addIntMacro "RTAX_MTU",
  Item.addIntMacro "RTAX_WINDOW",
  Item.addIntMacro "RTAX_RTT",
  Item.addIntMacro "RTAX_RTTVAR",
  Item.addIntMacro "RTAX_SSTHRESH",
  Item.addIntMacro "RTAX_CWND",
  Item.addIntMacro "RTAX_ADVMSS",
  Item.addIntMacro "RTAX_REORDERING",
  Item.addIntMacro "RTAX_HOPLIMIT",
  Item.addIntMacro "RTAX_INITCWND",
  Item.addIntMacro "RTAX_FEATURES",
  Item.addIntMacro "RTAX_RTO_MIN",
  Item.addIntMacro "RTAX_INITRWND",
  Item.addIntMacro "RTAX_QUICKACK",
  Item.addIntMacro "RTAX_CC_ALGO",
  Item.addIntMacro "RTAX_FASTOPEN_NO_COOKIE",
  Item.addIntMacro "RTAX_FEATURE_ECN",
  Item.addIntMacro "RTAX_FEATURE_SACK",
  Item.addIntMacro "RTAX_FEATURE_TIMESTAMP",
  Item.addIntMacro "RTAX_FEATURE_ALLFRAG",
  Item.ifdef "RTAX_FEATURE_TCP_USEC_TS" ["RTAX_FEATURE_TCP_USEC_TS"],
  Item.addIntMacro "RTAX_FEATURE_MASK"
]

/-- Section `/* prefixmsg families */`. -/
def sec_prefixmsg_families : List Item := [
  Item.addIntMacro "PREFIX_UNSPEC",
  Item.addIntMacro "PREFIX_ADDRESS",
  Item.addIntMacro "PREFIX_CACHEINFO"
]

/-- Section `/* tcmsg attributes */`. -/
def sec_tcmsg_attributes : List Item := [
  Item.addIntMacro "TCA_UNSPEC",
  Item.addIntMacro "TCA_KIND",
  Item.addIntMacro "TCA_OPTIONS",
  Item.addIntMacro "TCA_STATS",
  Item.addIntMacro "TCA_XSTATS",
  Item.addIntMacro "TCA_RATE",
  Item.addIntMacro "TCA_FCNT",
  Item.addIntMacro "TCA_STATS2",
  Item.addIntMacro "TCA_STAB",
  Item.addIntMacro "TCA_PAD",
  Item.addIntMacro "TCA_DUMP_INVISIBLE",
  Item.addIntMacro "TCA_CHAIN",
  Item.addIntMacro "TCA_HW_OFFLOAD",
  Item.addIntMacro "TCA_INGRESS_BLOCK",
  Item.addIntMacro "TCA_EGRESS_BLOCK",
  Item.addIntMacro "TCA_DUMP_FLAGS",
  Item.ifdef "TCA_EXT_WARN_MSG" ["TCA_EXT_WARN_MSG"]
]

/-- Section `/* tcmsg dump flags */`. -/
def sec_tcmsg_dump_flags : List Item := [
  Item.addIntMacro "TCA_DUMP_FLAGS_TERSE"
]

/-- Section `/* nduseropt family */`. -/
def sec_nduseropt_family : List Item := [
  Item.addIntMacro "NDUSEROPT_UNSPEC",
  Item.addIntMacro "NDUSEROPT_SRCADDR"
]

/-- Section `/* rtnetlink multicast groups */`. -/
def sec_rtnetlink_multicast_groups : List Item := [
  Item.addIntMacro "RTMGRP_LINK",
  Item.addIntMacro "RTMGRP_NOTIFY",
  Item.addIntMacro "RTMGRP_NEIGH",
  Item.addIntMacro "RTMGRP_TC",
  Item.addIntMacro "RTMGRP_IPV4_IFADDR",
  Item.addIntMacro "RTMGRP_IPV4_MROUTE",
  Item.addIntMacro "RTMGRP_IPV4_ROUTE",
  Item.addIntMacro "RTMGRP_IPV4_RULE",
  Item.addIntMacro "RTMGRP_IPV6_IFADDR",
  Item.addIntMacro "RTMGRP_IPV6_MROUTE",
  Item.addIntMacro "RTMGRP_IPV6_ROUTE",
  Item.addIntMacro "RTMGRP_IPV6_IFINFO",
  Item.addIntMacro "RTMGRP_DECnet_IFADDR",
  Item.addIntMacro "RTMGRP_DECnet_ROUTE",
  Item.addIntMacro "RTMGRP_IPV6_PREFIX",
  Item.addIntMacro "RTNLGRP_NONE",
  Item.addIntMacro "RTNLGRP_LINK",
  Item.addIntMacro "RTNLGRP_NOTIFY",
  Item.addIntMacro "RTNLGRP_NEIGH",
  Item.addIntMacro "RTNLGRP_TC",
  Item.addIntMacro "RTNLGRP_IPV4_IFADDR",
  Item.addIntMacro "RTNLGRP_IPV4_MROUTE",
  Item.addIntMacro "RTNLGRP_IPV4_ROUTE",
  Item.addIntMacro "RTNLGRP_IPV4_RULE",
  Item.addIntMacro "RTNLGRP_IPV6_IFADDR",
  Item.addIntMacro "RTNLGRP_IPV6_MROUTE",
  Item.addIntMacro "RTNLGRP_IPV6_ROUTE",
  Item.addIntMacro "RTNLGRP_IPV6_IFINFO",
  Item.addIntMacro "RTNLGRP_DECnet_IFADDR",
  Item.addIntMacro "RTNLGRP_DECnet_ROUTE",
  Item.addIntMacro "RTNLGRP_DECnet_RULE",
  Item.addIntMacro "RTNLGRP_IPV6_PREFIX",
  Item.addIntMacro "RTNLGRP_IPV6_RULE",
  Item.addIntMacro "RTNLGRP_ND_USEROPT",
  Item.addIntMacro "RTNLGRP_PHONET_IFADDR",
  Item.addIntMacro "RTNLGRP_PHONET_ROUTE",
  Item.addIntMacro "RTNLGRP_DCB",
  Item.addIntMacro "RTNLGRP_IPV4_NETCONF",
  Item.addIntMacro "RTNLGRP_IPV6_NETCONF",
  Item.addIntMacro "RTNLGRP_MDB",
  Item.addIntMacro "RTNLGRP_MPLS_ROUTE",
  Item.addIntMacro "RTNLGRP_NSID",
  Item.addIntMacro "RTNLGRP_MPLS_NETCONF",
  Item.addIntMacro "RTNLGRP_IPV4_MROUTE_R",
  Item.addIntMacro "RTNLGRP_IPV6_MROUTE_R",
  Item.addIntMacro "RTNLGRP_NEXTHOP",
  Item.addIntMacro "RTNLGRP_BRVLAN",
  Item.ifdef "RTNLGRP_MCTP_IFADDR" ["RTNLGRP_MCTP_IFADDR"],
  Item.ifdef "RTNLGRP_TUNNEL" ["RTNLGRP_TUNNEL"],
  Item.ifdef "RTNLGRP_STATS" ["RTNLGRP_STATS"]
]

/-- Section `/* tcamsg tca_family */`. -/
def sec_tcamsg_tca_family : List Item := [
  Item.addIntMacro "TCA_ROOT_UNSPEC",
  Item.addIntMacro "TCA_ROOT_TAB",
  Item.addIntMacro "TCA_ACT_TAB",
  Item.addIntMacro "TCA_ROOT_FLAGS",
  Item.addIntMacro "TCA_ROOT_COUNT",
  Item.addIntMacro "TCA_ROOT_TIME_DELTA",
  Item.ifdef "TCA_ROOT_EXT_WARN_MSG" ["TCA_ROOT_EXT_WARN_MSG"]
]

/-- Section `/* tcamsg dump flags */`. -/
def sec_tcamsg_dump_flags : List Item := [
  Item.addIntMacro "TCA_FLAG_LARGE_DUMP_ON",
  Item.addIntMacro "TCA_ACT_FLAG_LARGE_DUMP_ON",
  Item.addIntMacro "TCA_ACT_FLAG_TERSE_DUMP"
]

/-- Section `/* IFLA_EXT_MASK filters */`. -/
def sec_IFLA_EXT_MASK_filters : List Item := [
  Item.addIntMacro "RTEXT_FILTER_VF",
  Item.addIntMacro "RTEXT_FILTER_BRVLAN",
  Item.addIntMacro "RTEXT_FILTER_BRVLAN_COMPRESSED",
  Item.addIntMacro "RTEXT_FILTER_SKIP_STATS",
  Item.addIntMacro "RTEXT_FILTER_MRP",
  Item.addIntMacro "RTEXT_FILTER_CFM_CONFIG",
  Item.addIntMacro "RTEXT_FILTER_CFM_STATUS",
  Item.ifdef "RTEXT_FILTER_MST" ["RTEXT_FILTER_MST"]
]

/-- The body of `PyInit_constants` after the `NULL` check, section by section in
source order. -/
def PyInit_constants_body : List Item :=
  sec_Netlink_types ++
  sec_Flags_for_nlmsghdr_nlmsg_flags ++
  sec_Base_types_for_nlmsghdr_nlmsg_type ++
  sec_nlmsgerr_attribute_types ++
  sec_Netlink_socket_options ++
  sec_Netlink_attribute_flags_for_nla_type_in_nlattr ++
  sec_nlattr_attributes_types ++
  sec_nlattr_policy_type_attributes ++
  sec_rtnetlink_message_types_for_nlmsghdr_nlmsg_type ++
  sec_Route_types_for_rtmsg_rtm_type ++
  sec_Base_protocols_for_rtmsg_rtm_protocol ++
  sec_Scopes_for_rtmsg_rtm_scope ++
  sec_Flags_for_rtmsg_rtm_flags ++
  sec_Reserved_tables_for_rtmsg_rtm_table ++
  sec_rtmsg_attributes ++
  sec_Flags_for_rtnexthop_rtnh_flags ++
  sec_RTA_METRICS_sub_attributes ++
  sec_prefixmsg_families ++
  sec_tcmsg_attributes ++
  sec_tcmsg_dump_flags ++
  sec_nduseropt_family ++
  sec_rtnetlink_multicast_groups ++
  sec_tcamsg_tca_family ++
  sec_tcamsg_dump_flags ++
  sec_IFLA_EXT_MASK_filters

/-! ## Preprocessing and compilation -/

/-- The test of `#ifdef X`: true exactly when `X` is a preprocessor macro. -/
def ifdefTest (H : Headers) (X : String) : Bool :=
  match H X with
  | some d => d.isDefine
  | none => false

/-- Statements an item leaves after preprocessing. -/
def Item.expand (H : Headers) : Item → List String
  | .addIntMacro n => [n]
  | .ifdef g body => if ifdefTest H g then body else []

/-- Names of the `PyModule_AddIntMacro` statements left by the preprocessor, in
source order. -/
def preprocess (H : Headers) : List Item → List String
  | [] => []
  | it :: rest => it.expand H ++ preprocess H rest

/-- Conversion of an integer value to a C `long` of `w` bits (two's complement
wrap-around), as happens to the third argument of `PyModule_AddIntConstant`. -/
def toLong (w : Nat) (v : Int) : Int :=
  (v + 2 ^ (w - 1)) % 2 ^ w - 2 ^ (w - 1)

/-- The value is representable in a `long` of `w` bits. -/
def fitsLong (w : Nat) (v : Int) : Prop :=
  -(2 ^ (w - 1) : Int) ≤ v ∧ v < 2 ^ (w - 1)

instance (w : Nat) (v : Int) : Decidable (fitsLong w v) := by
  unfold fitsLong; exact inferInstance

/-- Compile the statements `PyModule_AddIntMacro(m, n);`: each becomes the call
`PyModule_AddIntConstant(m, "n", (long) n)`.  An identifier the headers do not
declare is a compile error, reported with its name. -/
def compileCalls (w : Nat) (H : Headers) : List String → Except String (List (String × Int))
  | [] => .ok []
  | n :: ns =>
    match H n with
    | none => .error n
    | some d =>
      match compileCalls w H ns with
      | .error e => .error e
      | .ok cs => .ok ((n, toLong w d.value) :: cs)

/-- Preprocess and compile a body. -/
def compile (w : Nat) (H : Headers) (src : List Item) : Except String (List (String × Int)) :=
  compileCalls w H (preprocess H src)

/-! ## Loading -/

/-- A module object: its name, docstring and integer attributes. -/
structure Module where
  name : String
  doc : String
  dict : List (String × Int)

/-- The value of `static struct PyModuleDef constants_module`, as a fresh module. -/
def constants_module : Module := { name := "netlink", doc := "Netlink constants", dict := [] }

/-- Attribute lookup. -/
def Module.getattr (m : Module) (k : String) : Option Int := m.dict.lookup k

/-- Attribute assignment (an existing attribute of that name is replaced). -/
def Module.setattr (m : Module) (k : String) (v : Int) : Module :=
  { m with dict := (k, v) :: m.dict.filter (fun p => p.1 != k) }

/-- Outcomes of the C API calls made while loading: whether `PyModule_Create`
succeeds, and whether the `i`-th call of `PyModule_AddIntConstant` (counted from
0) succeeds. -/
structure Runtime where
  createOk : Bool
  addOk : Nat → Bool

/-- The call `PyModule_AddIntConstant(m, name, value)`: on success the attribute is
set and 0 returned, on failure the module is unchanged and -1 returned. -/
def PyModule_AddIntConstant (ok : Bool) (m : Module) (name : String) (value : Int) : Module × Int :=
  if ok then (m.setattr name value, 0) else (m, -1)

/-- Run the compiled calls in order, from call number `i`; the return value of each
call is discarded, as in the source. -/
def runCalls (R : Runtime) : Nat → List (String × Int) → Module → Module
  | _, [], m => m
  | i, (n, v) :: rest, m => runCalls R (i + 1) rest (PyModule_AddIntConstant (R.addOk i) m n v).1

/-- What a run of `PyInit_constants` does: the value it returns (`none` is `NULL`)
and the names it passed to `PyModule_AddIntConstant`, in order. -/
structure Outcome where
  ret : Option Module
  registrations : List String

/-- The call `PyModule_Create(&constants_module)`: the fresh module, or `NULL`
(`none`) on failure. -/
def PyModule_Create (ok : Bool) (d : Module) : Option Module :=
  if ok then some d else none

/-- Run the compiled function: `m = PyModule_Create(&constants_module);`
`if (m == NULL) return NULL;` then every call in order; `return m;`. -/
def runInit (R : Runtime) (calls : List (String × Int)) : Outcome :=
  match PyModule_Create R.createOk constants_module with
  | none => { ret := none, registrations := [] }
  | some m => { ret := some (runCalls R 0 calls m), registrations := calls.map Prod.fst }

/-- Build the module against headers `H` for a target whose `long` has `w` bits and
load it under `R`.  `Except.error X` is the compile error "`X` undeclared". -/
def PyInit_constants (w : Nat) (H : Headers) (R : Runtime) : Except String Outcome :=
  match compile w H PyInit_constants_body with
  | .error e => .error e
  | .ok calls => .ok (runInit R calls)

/-- The calls the compiler emits for headers `H`: one per statement the preprocessor
leaves, with the header value converted to `long`. -/
def builtCalls (w : Nat) (H : Headers) : List (String × Int) :=
  (preprocess H PyInit_constants_body).map (fun n => (n, toLong w (H.value n)))

/-- A runtime in which every call succeeds. -/
def Runtime.allOk : Runtime := { createOk := true, addOk := fun _ => true }

/-! ## Header sets

The declarations below are those of the Linux 6.1 user-space headers
`linux/netlink.h` and `linux/rtnetlink.h` for the identifiers the source names,
in source order, together with `RTM_NEWVLAN` (the enumerator that the header's
macro `RTM_NEWNVLAN` stands for).  `define` marks the identifiers that are
macros, among them the enumerators the header re-defines under their own name
(`RTM_SETSTATS,` followed by `#define RTM_SETSTATS RTM_SETSTATS`).  The identifiers
`NL_ATTR_TYPE_SINT`, `NL_ATTR_TYPE_UINT` and `RTAX_FEATURE_TCP_USEC_TS` are newer than
these headers and not declared.  Some of the header lines behind the table:

* `#define NLA_F_NESTED (1 << 15)`, `#define NLA_F_NET_BYTEORDER (1 << 14)`,
  `#define NLA_TYPE_MASK ~(NLA_F_NESTED | NLA_F_NET_BYTEORDER)`;
* `#define NLMSG_NOOP 0x1`, `#define NLMSG_ERROR 0x2`, `#define NLMSG_DONE 0x3`,
  `#define NLMSG_OVERRUN 0x4`;
* in `enum nlmsgerr_attrs`, the enumerators `NLMSGERR_ATTR_MISS_TYPE` and
  `NLMSGERR_ATTR_MISS_NEST`, with no macro of either name;
* `RTM_NEWVLAN = 112,` followed by `#define RTM_NEWNVLAN RTM_NEWVLAN`, then
  `RTM_DELVLAN,` followed by `#define RTM_DELVLAN RTM_DELVLAN`;
* in `enum rt_class_t`, `RT_TABLE_MAX = 0xFFFFFFFF`. -/

/-- Linux 6.1: the identifiers of section `/* Netlink types */`. -/
def linux_6_1_part00 : List (String × Decl) := [
  ("NETLINK_ROUTE", Decl.define 0),
  ("NETLINK_UNUSED", Decl.define 1),
  ("NETLINK_USERSOCK", Decl.define 2),
  ("NETLINK_FIREWALL", Decl.define 3),
  ("NETLINK_SOCK_DIAG", Decl.define 4),
  ("NETLINK_NFLOG", Decl.define 5),
  ("NETLINK_XFRM", Decl.define 6),
  ("NETLINK_SELINUX", Decl.define 7),
  ("NETLINK_ISCSI", Decl.define 8),
  ("NETLINK_AUDIT", Decl.define 9),
  ("NETLINK_FIB_LOOKUP", Decl.define 10),
  ("NETLINK_CONNECTOR", Decl.define 11),
  ("NETLINK_NETFILTER", Decl.define 12),
  ("NETLINK_IP6_FW", Decl.define 13),
  ("NETLINK_DNRTMSG", Decl.define 14),
  ("NETLINK_KOBJECT_UEVENT", Decl.define 15),
  ("NETLINK_GENERIC", Decl.define 16),
  ("NETLINK_SCSITRANSPORT", Decl.define 18),
  ("NETLINK_ECRYPTFS", Decl.define 19),
  ("NETLINK_RDMA", Decl.define 20),
  ("NETLINK_CRYPTO", Decl.define 21),
  ("NETLINK_SMC", Decl.define 22),
  ("NETLINK_INET_DIAG", Decl.define 4)
]

/-- Linux 6.1: the identifiers of section `/* Flags for nlmsghdr nlmsg_flags */`. -/
def linux_6_1_part01 : List (String × Decl) := [
  ("NLM_F_REQUEST", Decl.define 1),
  ("NLM_F_MULTI", Decl.define 2),
  ("NLM_F_ACK", Decl.define 4),
  ("NLM_F_ECHO", Decl.define 8),
  ("NLM_F_DUMP_INTR", Decl.define 16),
  ("NLM_F_DUMP_FILTERED", Decl.define 32),
  ("NLM_F_ROOT", Decl.define 256),
  ("NLM_F_MATCH", Decl.define 512),
  ("NLM_F_ATOMIC", Decl.define 1024),
  ("NLM_F_DUMP", Decl.define 768),
  ("NLM_F_REPLACE", Decl.define 256),
  ("NLM_F_EXCL", Decl.define 512),
  ("NLM_F_CREATE", Decl.define 1024),
  ("NLM_F_APPEND", Decl.define 2048),
  ("NLM_F_NONREC", Decl.define 256),
  ("NLM_F_BULK", Decl.define 512),
  ("NLM_F_CAPPED", Decl.define 256),
  ("NLM_F_ACK_TLVS", Decl.define 512)
]

/-- Linux 6.1: the identifiers of section `/* Base types for nlmsghdr nlmsg_type */`. -/
def linux_6_1_part02 : List (String × Decl) := [
  ("NLMSG_NOOP", Decl.define 1),
  ("NLMSG_ERROR", Decl.define 2),
  ("NLMSG_DONE", Decl.define 3),
  ("NLMSG_OVERRUN", Decl.define 4)
]

/-- Linux 6.1: the identifiers of section `/* nlmsgerr attribute types */`. -/
def linux_6_1_part03 : List (String × Decl) := [
  ("NLMSGERR_ATTR_UNUSED", Decl.enumerator 0),
  ("NLMSGERR_ATTR_MSG", Decl.enumerator 1),
  ("NLMSGERR_ATTR_OFFS", Decl.enumerator 2),
  ("NLMSGERR_ATTR_COOKIE", Decl.enumerator 3),
  ("NLMSGERR_ATTR_POLICY", Decl.enumerator 4),
  ("NLMSGERR_ATTR_MISS_TYPE", Decl.enumerator 5),
  ("NLMSGERR_ATTR_MISS_NEST", Decl.enumerator 6)
]

/-- Linux 6.1: the identifiers of section `/* Netlink socket options */`. -/
def linux_6_1_part04 : List (String × Decl) := [
  ("NETLINK_ADD_MEMBERSHIP", Decl.define 1),
  ("NETLINK_DROP_MEMBERSHIP", Decl.define 2),
  ("NETLINK_PKTINFO", Decl.define 3),
  ("NETLINK_BROADCAST_ERROR", Decl.define 4),
  ("NETLINK_NO_ENOBUFS", Decl.define 5),
  ("NETLINK_RX_RING", Decl.define 6),
  ("NETLINK_TX_RING", Decl.define 7),
  ("NETLINK_LISTEN_ALL_NSID", Decl.define 8),
  ("NETLINK_LIST_MEMBERSHIPS", Decl.define 9),
  ("NETLINK_CAP_ACK", Decl.define 10),
  ("NETLINK_EXT_ACK", Decl.define 11),
  ("NETLINK_GET_STRICT_CHK", Decl.define 12)
]

/-- Linux 6.1: the identifiers of section `/* Netlink attribute flags for nla_type in nlattr */`. -/
def linux_6_1_part05 : List (String × Decl) := [
  ("NLA_F_NESTED", Decl.define 32768),
  ("NLA_F_NET_BYTEORDER", Decl.define 16384),
  ("NLA_TYPE_MASK", Decl.define (-49153))
]

/-- Linux 6.1: the identifiers of section `/* nlattr attributes types */`. -/
def linux_6_1_part06 : List (String × Decl) := [
  ("NL_ATTR_TYPE_INVALID", Decl.enumerator 0),
  ("NL_ATTR_TYPE_FLAG", Decl.enumerator 1),
  ("NL_ATTR_TYPE_U8", Decl.enumerator 2),
  ("NL_ATTR_TYPE_U16", Decl.enumerator 3),
  ("NL_ATTR_TYPE_U32", Decl.enumerator 4),
  ("NL_ATTR_TYPE_U64", Decl.enumerator 5),
  ("NL_ATTR_TYPE_S8", Decl.enumerator 6),
  ("NL_ATTR_TYPE_S16", Decl.enumerator 7),
  ("NL_ATTR_TYPE_S32", Decl.enumerator 8),
  ("NL_ATTR_TYPE_S64", Decl.enumerator 9),
  ("NL_ATTR_TYPE_BINARY", Decl.enumerator 10),
  ("NL_ATTR_TYPE_STRING", Decl.enumerator 11),
  ("NL_ATTR_TYPE_NUL_STRING", Decl.enumerator 12),
  ("NL_ATTR_TYPE_NESTED", Decl.enumerator 13),
  ("NL_ATTR_TYPE_NESTED_ARRAY", Decl.enumerator 14),
  ("NL_ATTR_TYPE_BITFIELD32", Decl.enumerator 15)
]

/-- Linux 6.1: the identifiers of section `/* nlattr policy type attributes */`. -/
def linux_6_1_part07 : List (String × Decl) := [
  ("NL_POLICY_TYPE_ATTR_UNSPEC", Decl.enumerator 0),
  ("NL_POLICY_TYPE_ATTR_TYPE", Decl.enumerator 1),
  ("NL_POLICY_TYPE_ATTR_MIN_VALUE_S", Decl.enumerator 2),
  ("NL_POLICY_TYPE_ATTR_MAX_VALUE_S", Decl.enumerator 3),
  ("NL_POLICY_TYPE_ATTR_MIN_VALUE_U", Decl.enumerator 4),
  ("NL_POLICY_TYPE_ATTR_MAX_VALUE_U", Decl.enumerator 5),
  ("NL_POLICY_TYPE_ATTR_MIN_LENGTH", Decl.enumerator 6),
  ("NL_POLICY_TYPE_ATTR_MAX_LENGTH", Decl.enumerator 7),
  ("NL_POLICY_TYPE_ATTR_POLICY_IDX", Decl.enumerator 8),
  ("NL_POLICY_TYPE_ATTR_POLICY_MAXTYPE", Decl.enumerator 9),
  ("NL_POLICY_TYPE_ATTR_BITFIELD32_MASK", Decl.enumerator 10),
  ("NL_POLICY_TYPE_ATTR_PAD", Decl.enumerator 11),
  ("NL_POLICY_TYPE_ATTR_MASK", Decl.enumerator 12)
]

/-- Linux 6.1: the identifiers of section `/* rtnetlink message types for nlmsghdr nlmsg_type */`. -/
def linux_6_1_part08 : List (String × Decl) := [
  ("RTM_NEWLINK", Decl.define 16),
  ("RTM_DELLINK", Decl.define 17),
  ("RTM_GETLINK", Decl.define 18),
  ("RTM_SETLINK", Decl.define 19),
  ("RTM_NEWADDR", Decl.define 20),
  ("RTM_DELADDR", Decl.define 21),
  ("RTM_GETADDR", Decl.define 22),
  ("RTM_NEWROUTE", Decl.define 24),
  ("RTM_DELROUTE", Decl.define 25),
  ("RTM_GETROUTE", Decl.define 26),
  ("RTM_NEWNEIGH", Decl.define 28),
  ("RTM_DELNEIGH", Decl.define 29),
  ("RTM_GETNEIGH", Decl.define 30),
  ("RTM_NEWRULE", Decl.define 32),
  ("RTM_DELRULE", Decl.define 33),
  ("RTM_GETRULE", Decl.define 34),
  ("RTM_NEWQDISC", Decl.define 36),
  ("RTM_DELQDISC", Decl.define 37),
  ("RTM_GETQDISC", Decl.define 38),
  ("RTM_NEWTCLASS", Decl.define 40),
  ("RTM_DELTCLASS", Decl.define 41),
  ("RTM_GETTCLASS", Decl.define 42),
  ("RTM_NEWTFILTER", Decl.define 44),
  ("RTM_DELTFILTER", Decl.define 45),
  ("RTM_GETTFILTER", Decl.define 46),
  ("RTM_NEWACTION", Decl.define 48),
  ("RTM_DELACTION", Decl.define 49),
  ("RTM_GETACTION", Decl.define 50),
  ("RTM_NEWPREFIX", Decl.define 52),
  ("RTM_GETMULTICAST", Decl.define 58),
  ("RTM_GETANYCAST", Decl.define 62),
  ("RTM_NEWNEIGHTBL", Decl.define 64),
  ("RTM_GETNEIGHTBL", Decl.define 66),
  ("RTM_SETNEIGHTBL", Decl.define 67),
  ("RTM_NEWNDUSEROPT", Decl.define 68),
  ("RTM_NEWADDRLABEL", Decl.define 72),
  ("RTM_DELADDRLABEL", Decl.define 73),
  ("RTM_GETADDRLABEL", Decl.define 74),
  ("RTM_GETDCB", Decl.define 78),
  ("RTM_SETDCB", Decl.define 79),
  ("RTM_NEWNETCONF", Decl.define 80),
  ("RTM_DELNETCONF", Decl.define 81),
  ("RTM_GETNETCONF", Decl.define 82),
  ("RTM_NEWMDB", Decl.define 84),
  ("RTM_DELMDB", Decl.define 85),
  ("RTM_GETMDB", Decl.define 86),
  ("RTM_NEWNSID", Decl.define 88),
  ("RTM_DELNSID", Decl.define 89),
  ("RTM_GETNSID", Decl.define 90),
  ("RTM_NEWSTATS", Decl.define 92),
  ("RTM_GETSTATS", Decl.define 94),
  ("RTM_SETSTATS", Decl.define 95),
  ("RTM_NEWCACHEREPORT", Decl.define 96),
  ("RTM_NEWCHAIN", Decl.define 100),
  ("RTM_DELCHAIN", Decl.define 101),
  ("RTM_GETCHAIN", Decl.define 102),
  ("RTM_NEWNEXTHOP", Decl.define 104),
  ("RTM_DELNEXTHOP", Decl.define 105),
  ("RTM_GETNEXTHOP", Decl.define 106),
  ("RTM_NEWLINKPROP", Decl.define 108),
  ("RTM_DELLINKPROP", Decl.define 109),
  ("RTM_GETLINKPROP", Decl.define 110),
  ("RTM_NEWVLAN", Decl.enumerator 112),
  ("RTM_NEWNVLAN", Decl.define 112),
  ("RTM_DELVLAN", Decl.define 113),
  ("RTM_GETVLAN", Decl.define 114),
  ("RTM_NEWNEXTHOPBUCKET", Decl.define 116),
  ("RTM_DELNEXTHOPBUCKET", Decl.define 117),
  ("RTM_GETNEXTHOPBUCKET", Decl.define 118),
  ("RTM_NEWTUNNEL", Decl.define 120),
  ("RTM_DELTUNNEL", Decl.define 121),
  ("RTM_GETTUNNEL", Decl.define 122)
]

/-- Linux 6.1: the identifiers of section `/* Route types for rtmsg rtm_type */`. -/
def linux_6_1_part09 : List (String × Decl) := [
  ("RTN_UNSPEC", Decl.enumerator 0),
  ("RTN_UNICAST", Decl.enumerator 1),
  ("RTN_LOCAL", Decl.enumerator 2),
  ("RTN_BROADCAST", Decl.enumerator 3),
  ("RTN_ANYCAST", Decl.enumerator 4),
  ("RTN_MULTICAST", Decl.enumerator 5),
  ("RTN_BLACKHOLE", Decl.enumerator 6),
  ("RTN_UNREACHABLE", Decl.enumerator 7),
  ("RTN_PROHIBIT", Decl.enumerator 8),
  ("RTN_THROW", Decl.enumerator 9),
  ("RTN_NAT", Decl.enumerator 10),
  ("RTN_XRESOLVE", Decl.enumerator 11)
]

/-- Linux 6.1: the identifiers of section `/* Base protocols for rtmsg rtm_protocol */`. -/
def linux_6_1_part10 : List (String × Decl) := [
  ("RTPROT_UNSPEC", Decl.define 0),
  ("RTPROT_REDIRECT", Decl.define 1),
  ("RTPROT_KERNEL", Decl.define 2),
  ("RTPROT_BOOT", Decl.define 3),
  ("RTPROT_STATIC", Decl.define 4),
  ("RTPROT_GATED", Decl.define 8),
  ("RTPROT_RA", Decl.define 9),
  ("RTPROT_MRT", Decl.define 10),
  ("RTPROT_ZEBRA", Decl.define 11),
  ("RTPROT_BIRD", Decl.define 12),
  ("RTPROT_DNROUTED", Decl.define 13),
  ("RTPROT_XORP", Decl.define 14),
  ("RTPROT_NTK", Decl.define 15),
  ("RTPROT_DHCP", Decl.define 16),
  ("RTPROT_MROUTED", Decl.define 17),
  ("RTPROT_KEEPALIVED", Decl.define 18),
  ("RTPROT_BABEL", Decl.define 42),
  ("RTPROT_OPENR", Decl.define 99),
  ("RTPROT_BGP", Decl.define 186),
  ("RTPROT_ISIS", Decl.define 187),
  ("RTPROT_OSPF", Decl.define 188),
  ("RTPROT_RIP", Decl.define 189),
  ("RTPROT_EIGRP", Decl.define 192)
]

/-- Linux 6.1: the identifiers of section `/* Scopes for rtmsg rtm_scope */`. -/
def linux_6_1_part11 : List (String × Decl) := [
  ("RT_SCOPE_UNIVERSE", Decl.enumerator 0),
  ("RT_SCOPE_SITE", Decl.enumerator 200),
  ("RT_SCOPE_LINK", Decl.enumerator 253),
  ("RT_SCOPE_HOST", Decl.enumerator 254),
  ("RT_SCOPE_NOWHERE", Decl.enumerator 255)
]

/-- Linux 6.1: the identifiers of section `/* Flags for rtmsg rtm_flags */`. -/
def linux_6_1_part12 : List (String × Decl) := [
  ("RTM_F_NOTIFY", Decl.define 256),
  ("RTM_F_CLONED", Decl.define 512),
  ("RTM_F_EQUALIZE", Decl.define 1024),
  ("RTM_F_PREFIX", Decl.define 2048),
  ("RTM_F_LOOKUP_TABLE", Decl.define 4096),
  ("RTM_F_FIB_MATCH", Decl.define 8192),
  ("RTM_F_OFFLOAD", Decl.define 16384),
  ("RTM_F_TRAP", Decl.define 32768),
  ("RTM_F_OFFLOAD_FAILED", Decl.define 536870912)
]

/-- Linux 6.1: the identifiers of section `/* Reserved tables for rtmsg rtm_table */`. -/
def linux_6_1_part13 : List (String × Decl) := [
  ("RT_TABLE_UNSPEC", Decl.enumerator 0),
  ("RT_TABLE_COMPAT", Decl.enumerator 252),
  ("RT_TABLE_DEFAULT", Decl.enumerator 253),
  ("RT_TABLE_MAIN", Decl.enumerator 254),
  ("RT_TABLE_LOCAL", Decl.enumerator 255),
  ("RT_TABLE_MAX", Decl.enumerator 4294967295)
]

/-- Linux 6.1: the identifiers of section `/* rtmsg attributes */`. -/
def linux_6_1_part14 : List (String × Decl) := [
  ("RTA_UNSPEC", Decl.enumerator 0),
  ("RTA_DST", Decl.enumerator 1),
  ("RTA_SRC", Decl.enumerator 2),
  ("RTA_IIF", Decl.enumerator 3),
  ("RTA_OIF", Decl.enumerator 4),
  ("RTA_GATEWAY", Decl.enumerator 5),
  ("RTA_PRIORITY", Decl.enumerator 6),
  ("RTA_PREFSRC", Decl.enumerator 7),
  ("RTA_METRICS", Decl.enumerator 8),
  ("RTA_MULTIPATH", Decl.enumerator 9),
  ("RTA_PROTOINFO", Decl.enumerator 10),
  ("RTA_FLOW", Decl.enumerator 11),
  ("RTA_CACHEINFO", Decl.enumerator 12),
  ("RTA_SESSION", Decl.enumerator 13),
  ("RTA_MP_ALGO", Decl.enumerator 14),
  ("RTA_TABLE", Decl.enumerator 15),
  ("RTA_MARK", Decl.enumerator 16),
  ("RTA_MFC_STATS", Decl.enumerator 17),
  ("RTA_VIA", Decl.enumerator 18),
  ("RTA_NEWDST", Decl.enumerator 19),
  ("RTA_PREF", Decl.enumerator 20),
  ("RTA_ENCAP_TYPE", Decl.enumerator 21),
  ("RTA_ENCAP", Decl.enumerator 22),
  ("RTA_EXPIRES", Decl.enumerator 23),
  ("RTA_PAD", Decl.enumerator 24),
  ("RTA_UID", Decl.enumerator 25),
  ("RTA_TTL_PROPAGATE", Decl.enumerator 26),
  ("RTA_IP_PROTO", Decl.enumerator 27),
  ("RTA_SPORT", Decl.enumerator 28),
  ("RTA_DPORT", Decl.enumerator 29),
  ("RTA_NH_ID", Decl.enumerator 30)
]

/-- Linux 6.1: the identifiers of section `/* Flags for rtnexthop rtnh_flags */`. -/
def linux_6_1_part15 : List (String × Decl) := [
  ("RTNH_F_DEAD", Decl.define 1),
  ("RTNH_F_PERVASIVE", Decl.define 2),
  ("RTNH_F_ONLINK", Decl.define 4),
  ("RTNH_F_OFFLOAD", Decl.define 8),
  ("RTNH_F_LINKDOWN", Decl.define 16),
  ("RTNH_F_UNRESOLVED", Decl.define 32),
  ("RTNH_F_TRAP", Decl.define 64),
  ("RTNH_COMPARE_MASK", Decl.define 89)
]

/-- Linux 6.1: the identifiers of section `/* RTA_METRICS sub-attributes */`. -/
def linux_6_1_part16 : List (String × Decl) := [
  ("RTAX_UNSPEC", Decl.define 0),
  ("RTAX_LOCK", Decl.define 1),
  ("RTAX_MTU", Decl.define 2),
  ("RTAX_WINDOW", Decl.define 3),
  ("RTAX_RTT", Decl.define 4),
  ("RTAX_RTTVAR", Decl.define 5),
  ("RTAX_SSTHRESH", Decl.define 6),
  ("RTAX_CWND", Decl.define 7),
  ("RTAX_ADVMSS", Decl.define 8),
  ("RTAX_REORDERING", Decl.define 9),
  ("RTAX_HOPLIMIT", Decl.define 10),
  ("RTAX_INITCWND", Decl.define 11),
  ("RTAX_FEATURES", Decl.define 12),
  ("RTAX_RTO_MIN", Decl.define 13),
  ("RTAX_INITRWND", Decl.define 14),
  ("RTAX_QUICKACK", Decl.define 15),
  ("RTAX_CC_ALGO", Decl.define 16),
  ("RTAX_FASTOPEN_NO_COOKIE", Decl.define 17),
  ("RTAX_FEATURE_ECN", Decl.define 1),
  ("RTAX_FEATURE_SACK", Decl.define 2),
  ("RTAX_FEATURE_TIMESTAMP", Decl.define 4),
  ("RTAX_FEATURE_ALLFRAG", Decl.define 8),
  ("RTAX_FEATURE_MASK", Decl.define 15)
]

/-- Linux 6.1: the identifiers of section `/* prefixmsg families */`. -/
def linux_6_1_part17 : List (String × Decl) := [
  ("PREFIX_UNSPEC", Decl.enumerator 0),
  ("PREFIX_ADDRESS", Decl.enumerator 1),
  ("PREFIX_CACHEINFO", Decl.enumerator 2)
]

/-- Linux 6.1: the identifiers of section `/* tcmsg attributes */`. -/
def linux_6_1_part18 : List (String × Decl) := [
  ("TCA_UNSPEC", Decl.enumerator 0),
  ("TCA_KIND", Decl.enumerator 1),
  ("TCA_OPTIONS", Decl.enumerator 2),
  ("TCA_STATS", Decl.enumerator 3),
  ("TCA_XSTATS", Decl.enumerator 4),
  ("TCA_RATE", Decl.enumerator 5),
  ("TCA_FCNT", Decl.enumerator 6),
  ("TCA_STATS2", Decl.enumerator 7),
  ("TCA_STAB", Decl.enumerator 8),
  ("TCA_PAD", Decl.enumerator 9),
  ("TCA_DUMP_INVISIBLE", Decl.enumerator 10),
  ("TCA_CHAIN", Decl.enumerator 11),
  ("TCA_HW_OFFLOAD", Decl.enumerator 12),
  ("TCA_INGRESS_BLOCK", Decl.enumerator 13),
  ("TCA_EGRESS_BLOCK", Decl.enumerator 14),
  ("TCA_DUMP_FLAGS", Decl.enumerator 15),
  ("TCA_EXT_WARN_MSG", Decl.enumerator 16)
]

/-- Linux 6.1: the identifiers of section `/* tcmsg dump flags */`. -/
def linux_6_1_part19 : List (String × Decl) := [
  ("TCA_DUMP_FLAGS_TERSE", Decl.define 1)
]

/-- Linux 6.1: the identifiers of section `/* nduseropt family */`. -/
def linux_6_1_part20 : List (String × Decl) := [
  ("NDUSEROPT_UNSPEC", Decl.enumerator 0),
  ("NDUSEROPT_SRCADDR", Decl.enumerator 1)
]

/-- Linux 6.1: the identifiers of section `/* rtnetlink multicast groups */`. -/
def linux_6_1_part21 : List (String × Decl) := [
  ("RTMGRP_LINK", Decl.define 1),
  ("RTMGRP_NOTIFY", Decl.define 2),
  ("RTMGRP_NEIGH", Decl.define 4),
  ("RTMGRP_TC", Decl.define 8),
  ("RTMGRP_IPV4_IFADDR", Decl.define 16),
  ("RTMGRP_IPV4_MROUTE", Decl.define 32),
  ("RTMGRP_IPV4_ROUTE", Decl.define 64),
  ("RTMGRP_IPV4_RULE", Decl.define 128),
  ("RTMGRP_IPV6_IFADDR", Decl.define 256),
  ("RTMGRP_IPV6_MROUTE", Decl.define 512),
  ("RTMGRP_IPV6_ROUTE", Decl.define 1024),
  ("RTMGRP_IPV6_IFINFO", Decl.define 2048),
  ("RTMGRP_DECnet_IFADDR", Decl.define 4096),
  ("RTMGRP_DECnet_ROUTE", Decl.define 16384),
  ("RTMGRP_IPV6_PREFIX", Decl.define 131072),
  ("RTNLGRP_NONE", Decl.define 0),
  ("RTNLGRP_LINK", Decl.define 1),
  ("RTNLGRP_NOTIFY", Decl.define 2),
  ("RTNLGRP_NEIGH", Decl.define 3),
  ("RTNLGRP_TC", Decl.define 4),
  ("RTNLGRP_IPV4_IFADDR", Decl.define 5),
  ("RTNLGRP_IPV4_MROUTE", Decl.define 6),
  ("RTNLGRP_IPV4_ROUTE", Decl.define 7),
  ("RTNLGRP_IPV4_RULE", Decl.define 8),
  ("RTNLGRP_IPV6_IFADDR", Decl.define 9),
  ("RTNLGRP_IPV6_MROUTE", Decl.define 10),
  ("RTNLGRP_IPV6_ROUTE", Decl.define 11),
  ("RTNLGRP_IPV6_IFINFO", Decl.define 12),
  ("RTNLGRP_DECnet_IFADDR", Decl.define 13),
  ("RTNLGRP_DECnet_ROUTE", Decl.define 15),
  ("RTNLGRP_DECnet_RULE", Decl.define 16),
  ("RTNLGRP_IPV6_PREFIX", Decl.define 18),
  ("RTNLGRP_IPV6_RULE", Decl.define 19),
  ("RTNLGRP_ND_USEROPT", Decl.define 20),
  ("RTNLGRP_PHONET_IFADDR", Decl.define 21),
  ("RTNLGRP_PHONET_ROUTE", Decl.define 22),
  ("RTNLGRP_DCB", Decl.define 23),
  ("RTNLGRP_IPV4_NETCONF", Decl.define 24),
  ("RTNLGRP_IPV6_NETCONF", Decl.define 25),
  ("RTNLGRP_MDB", Decl.define 26),
  ("RTNLGRP_MPLS_ROUTE", Decl.define 27),
  ("RTNLGRP_NSID", Decl.define 28),
  ("RTNLGRP_MPLS_NETCONF", Decl.define 29),
  ("RTNLGRP_IPV4_MROUTE_R", Decl.define 30),
  ("RTNLGRP_IPV6_MROUTE_R", Decl.define 31),
  ("RTNLGRP_NEXTHOP", Decl.define 32),
  ("RTNLGRP_BRVLAN", Decl.define 33),
  ("RTNLGRP_MCTP_IFADDR", Decl.define 34),
  ("RTNLGRP_TUNNEL", Decl.define 35),
  ("RTNLGRP_STATS", Decl.define 36)
]

/-- Linux 6.1: the identifiers of section `/* tcamsg tca_family */`. -/
def linux_6_1_part22 : List (String × Decl) := [
  ("TCA_ROOT_UNSPEC", Decl.enumerator 0),
  ("TCA_ROOT_TAB", Decl.enumerator 1),
  ("TCA_ACT_TAB", Decl.define 1),
  ("TCA_ROOT_FLAGS", Decl.enumerator 2),
  ("TCA_ROOT_COUNT", Decl.enumerator 3),
  ("TCA_ROOT_TIME_DELTA", Decl.enumerator 4),
  ("TCA_ROOT_EXT_WARN_MSG", Decl.enumerator 5)
]

/-- Linux 6.1: the identifiers of section `/* tcamsg dump flags */`. -/
def linux_6_1_part23 : List (String × Decl) := [
  ("TCA_FLAG_LARGE_DUMP_ON", Decl.define 1),
  ("TCA_ACT_FLAG_LARGE_DUMP_ON", Decl.define 1),
  ("TCA_ACT_FLAG_TERSE_DUMP", Decl.define 2)
]

/-- Linux 6.1: the identifiers of section `/* IFLA_EXT_MASK filters */`. -/
def linux_6_1_part24 : List (String × Decl) := [
  ("RTEXT_FILTER_VF", Decl.define 1),
  ("RTEXT_FILTER_BRVLAN", Decl.define 2),
  ("RTEXT_FILTER_BRVLAN_COMPRESSED", Decl.define 4),
  ("RTEXT_FILTER_SKIP_STATS", Decl.define 8),
  ("RTEXT_FILTER_MRP", Decl.define 16),
  ("RTEXT_FILTER_CFM_CONFIG", Decl.define 32),
  ("RTEXT_FILTER_CFM_STATUS", Decl.define 64),
  ("RTEXT_FILTER_MST", Decl.define 128)
]

/-- Linux 6.1: the whole table. -/
def linux_6_1_decls : List (String × Decl) :=
  linux_6_1_part00 ++
  linux_6_1_part01 ++
  linux_6_1_part02 ++
  linux_6_1_part03 ++
  linux_6_1_part04 ++
  linux_6_1_part05 ++
  linux_6_1_part06 ++
  linux_6_1_part07 ++
  linux_6_1_part08 ++
  linux_6_1_part09 ++
  linux_6_1_part10 ++
  linux_6_1_part11 ++
  linux_6_1_part12 ++
  linux_6_1_part13 ++
  linux_6_1_part14 ++
  linux_6_1_part15 ++
  linux_6_1_part16 ++
  linux_6_1_part17 ++
  linux_6_1_part18 ++
  linux_6_1_part19 ++
  linux_6_1_part20 ++
  linux_6_1_part21 ++
  linux_6_1_part22 ++
  linux_6_1_part23 ++
  linux_6_1_part24

/-- Headers of Linux 6.1. -/
def linux_6_1 : Headers := Headers.ofList linux_6_1_decls

/-- The module loaded from a build against the Linux 6.1 headers on a target with a
64-bit `long`, every call succeeding. -/
def linux_6_1_module : Module :=
  runCalls Runtime.allOk 0 (builtCalls 64 linux_6_1) constants_module

/-- The Linux 6.1 headers without the nexthop-bucket message types, as in header
sets that predate them. -/
def linux_no_nexthop_bucket : Headers :=
  linux_6_1.without ["RTM_NEWNEXTHOPBUCKET", "RTM_DELNEXTHOPBUCKET", "RTM_GETNEXTHOPBUCKET"]

/-- The Linux 6.1 headers without the macro `NLM_F_BULK`, as in header sets that
predate it. -/
def linux_no_bulk : Headers := linux_6_1.without ["NLM_F_BULK"]

/-- The module loaded from a build against `linux_no_bulk`, every call succeeding. -/
def linux_no_bulk_module : Module :=
  runCalls Runtime.allOk 0 (builtCalls 64 linux_no_bulk) constants_module

/-- A runtime in which `PyModule_Create` succeeds and the first call of
`PyModule_AddIntConstant` fails (say for lack of memory), the later ones succeeding. -/
def Runtime.firstAddFails : Runtime := { createOk := true, addOk := fun j => decide (j ≠ 0) }

/-- Every identifier the body names, inside a guarded block or not, in source order. -/
def allNames : List Item → List String
  | [] => []
  | it :: rest => it.names ++ allNames rest

/-- A name read as a number in base 256 (a key that is cheap to compare). -/
def nameKey (s : String) : Nat :=
  s.data.foldl (fun acc c => acc * 256 + c.toNat) 0

/-! ## Generic facts about the embedding -/

theorem mem_preprocess {H : Headers} {src : List Item} {n : String} :
    n ∈ preprocess H src ↔ ∃ it ∈ src, n ∈ it.expand H := by
  induction src with
  | nil => simp [preprocess]
  | cons it rest ih => simp [preprocess, ih]

theorem mem_preprocess_iff {H : Headers} {src : List Item} {n : String} :
    n ∈ preprocess H src ↔
      Item.addIntMacro n ∈ src ∨
        ∃ g ns, Item.ifdef g ns ∈ src ∧ n ∈ ns ∧ ifdefTest H g = true := by
  rw [mem_preprocess]
  constructor
  · rintro ⟨it, hit, hn⟩
    cases it with
    | addIntMacro k =>
      simp only [Item.expand, List.mem_singleton] at hn
      subst hn
      exact Or.inl hit
    | ifdef g ns =>
      simp only [Item.expand] at hn
      by_cases hg : ifdefTest H g = true
      · rw [if_pos hg] at hn
        exact Or.inr ⟨g, ns, hit, hn, hg⟩
      · rw [if_neg hg] at hn
        simp at hn
  · rintro (h | ⟨g, ns, hit, hn, hg⟩)
    · exact ⟨_, h, by simp [Item.expand]⟩
    · exact ⟨_, hit, by simp [Item.expand, hg, hn]⟩

theorem compileCalls_eq_ok_iff {w : Nat} {H : Headers} {ns : List String}
    {cs : List (String × Int)} :
    compileCalls w H ns = Except.ok cs ↔
      (∀ n ∈ ns, (H n).isSome = true) ∧ cs = ns.map (fun n => (n, toLong w (H.value n))) := by
  induction ns generalizing cs with
  | nil =>
    simp only [compileCalls, Except.ok.injEq, List.not_mem_nil, false_implies, implies_true,
      List.map_nil, true_and]
    exact eq_comm
  | cons n ns ih =>
    cases hn : H n with
    | none =>
      simp [compileCalls, hn]
    | some d =>
      cases hc : compileCalls w H ns with
      | error e =>
        have hno : ¬ ∀ k ∈ ns, (H k).isSome = true := fun hall =>
          absurd ((@ih (ns.map (fun n => (n, toLong w (H.value n))))).mpr ⟨hall, rfl⟩)
            (by rw [hc]; exact fun h => nomatch h)
        simp only [compileCalls, hn, hc, List.mem_cons, forall_eq_or_imp, Option.isSome_some,
          true_and, List.map_cons]
        constructor
        · intro h
          exact nomatch h
        · intro h
          exact absurd h.1 hno
      | ok cs0 =>
        obtain ⟨hall, hcs⟩ := ih.mp hc
        subst hcs
        simp only [compileCalls, hn, hc, Except.ok.injEq, List.mem_cons, forall_eq_or_imp,
          Option.isSome_some, true_and, List.map_cons, Headers.value]
        constructor
        · intro h
          exact ⟨hall, h.symm⟩
        · intro h
          exact h.2.symm

theorem compileCalls_error_of_undeclared {w : Nat} {H : Headers} {ns : List String} {n : String}
    (hn : n ∈ ns) (hH : H n = none) :
    ∃ e, compileCalls w H ns = Except.error e ∧ e ∈ ns ∧ H e = none := by
  induction ns with
  | nil => simp at hn
  | cons k ks ih =>
    cases hk : H k with
    | none => exact ⟨k, by simp [compileCalls, hk], by simp, hk⟩
    | some d =>
      have hn2 : n ∈ ks := by
        rcases List.mem_cons.mp hn with h | h
        · subst h; rw [hH] at hk; exact nomatch hk
        · exact h
      obtain ⟨e, he, hmem, hnone⟩ := ih hn2
      exact ⟨e, by simp [compileCalls, hk, he], List.mem_cons_of_mem _ hmem, hnone⟩

theorem getattr_setattr (m : Module) (k : String) (v : Int) (k2 : String) :
    (m.setattr k v).getattr k2 = if k2 = k then some v else m.getattr k2 := by
  unfold Module.setattr Module.getattr
  simp only [List.lookup_cons]
  by_cases h : k2 = k
  · subst h; simp
  · have hb : (k2 == k) = false := by simpa using h
    rw [hb, if_neg h]
    simp only
    generalize m.dict = l
    induction l with
    | nil => simp
    | cons p l ih =>
      obtain ⟨a, b⟩ := p
      by_cases hp : a = k
      · subst hp
        simp [List.filter_cons, List.lookup_cons, hb, ih]
      · by_cases hq : k2 = a
        · simp [List.filter_cons, hp, List.lookup_cons, hq]
        · have hk2 : (k2 == a) = false := by simpa using hq
          simp [List.filter_cons, hp, List.lookup_cons, hk2, ih]

theorem getattr_AddIntConstant (ok : Bool) (m : Module) (n : String) (v : Int) (k : String) :
    (PyModule_AddIntConstant ok m n v).1.getattr k =
      if ok = true ∧ k = n then some v else m.getattr k := by
  unfold PyModule_AddIntConstant
  cases ok with
  | false => simp
  | true => simp [getattr_setattr]

theorem runCalls_getattr_keep (R : Runtime) (f : String → Int) (ns : List String) (i : Nat)
    (m : Module) (k : String) (h : m.getattr k = some (f k)) :
    (runCalls R i (ns.map (fun n => (n, f n))) m).getattr k = some (f k) := by
  induction ns generalizing i m with
  | nil => simpa [runCalls] using h
  | cons n ns ih =>
    simp only [List.map_cons, runCalls]
    apply ih
    rw [getattr_AddIntConstant]
    by_cases hc : R.addOk i = true ∧ k = n
    · rw [if_pos hc, hc.2]
    · rw [if_neg hc, h]

theorem runCalls_getattr_of_ok (R : Runtime) (f : String → Int) (ns : List String) (i : Nat)
    (m : Module) (k : String) (j : Nat) (hj : ns[j]? = some k) (hok : R.addOk (i + j) = true) :
    (runCalls R i (ns.map (fun n => (n, f n))) m).getattr k = some (f k) := by
  induction ns generalizing i m j with
  | nil => simp at hj
  | cons n ns ih =>
    simp only [List.map_cons, runCalls]
    cases j with
    | zero =>
      simp only [List.getElem?_cons_zero, Option.some.injEq] at hj
      subst hj
      apply runCalls_getattr_keep
      rw [getattr_AddIntConstant]
      simp only [Nat.add_zero] at hok
      simp [hok]
    | succ j =>
      simp only [List.getElem?_cons_succ] at hj
      apply ih (i + 1) _ j hj
      rw [← hok]
      congr 1
      omega

theorem runCalls_getattr_some (R : Runtime) (f : String → Int) (ns : List String) (i : Nat)
    (m : Module) (k : String) (v : Int)
    (h : (runCalls R i (ns.map (fun n => (n, f n))) m).getattr k = some v) :
    m.getattr k = some v ∨ (v = f k ∧ ∃ j, ns[j]? = some k ∧ R.addOk (i + j) = true) := by
  induction ns generalizing i m with
  | nil => exact Or.inl (by simpa [runCalls] using h)
  | cons n ns ih =>
    simp only [List.map_cons, runCalls] at h
    rcases ih (i + 1) _ h with h1 | ⟨hv, j, hj, hok⟩
    · rw [getattr_AddIntConstant] at h1
      by_cases hc : R.addOk i = true ∧ k = n
      · rw [if_pos hc] at h1
        refine Or.inr ⟨?_, 0, ?_, ?_⟩
        · rw [hc.2]; exact (Option.some.inj h1).symm
        · simp [hc.2]
        · simpa using hc.1
      · rw [if_neg hc] at h1
        exact Or.inl h1
    · refine Or.inr ⟨hv, j + 1, ?_, ?_⟩
      · simpa using hj
      · rw [← hok]
        congr 1
        omega

theorem getattr_constants_module (k : String) : constants_module.getattr k = none := rfl

theorem PyInit_constants_eq_ok_iff {w : Nat} {H : Headers} {R : Runtime} {o : Outcome} :
    PyInit_constants w H R = Except.ok o ↔
      (∀ n ∈ preprocess H PyInit_constants_body, (H n).isSome = true) ∧
        o = runInit R (builtCalls w H) := by
  unfold PyInit_constants compile
  cases hc : compileCalls w H (preprocess H PyInit_constants_body) with
  | error e =>
    have hno : ¬ ∀ n ∈ preprocess H PyInit_constants_body, (H n).isSome = true := fun hall =>
      absurd (compileCalls_eq_ok_iff.mpr ⟨hall, rfl⟩) (by rw [hc]; exact fun h => nomatch h)
    constructor
    · intro h
      exact nomatch h
    · intro h
      exact absurd h.1 hno
  | ok cs =>
    obtain ⟨hall, hcs⟩ := compileCalls_eq_ok_iff.mp hc
    subst hcs
    simp only [Except.ok.injEq]
    constructor
    · intro h
      exact ⟨hall, h.symm⟩
    · intro h
      exact h.2.symm

theorem PyInit_constants_error_of_undeclared {w : Nat} {H : Headers} (R : Runtime) {n : String}
    (hn : n ∈ preprocess H PyInit_constants_body) (hH : H n = none) :
    ∃ e, PyInit_constants w H R = Except.error e ∧
      e ∈ preprocess H PyInit_constants_body ∧ H e = none := by
  obtain ⟨e, he, hmem, hnone⟩ := compileCalls_error_of_undeclared (w := w) hn hH
  refine ⟨e, ?_, hmem, hnone⟩
  unfold PyInit_constants compile
  rw [he]

theorem loaded_spec {w : Nat} {H : Headers} {R : Runtime} {o : Outcome} {m : Module}
    (hrun : PyInit_constants w H R = Except.ok o) (hm : o.ret = some m) :
    R.createOk = true ∧ o.registrations = preprocess H PyInit_constants_body ∧
      m = runCalls R 0 (builtCalls w H) constants_module := by
  obtain ⟨_, ho⟩ := PyInit_constants_eq_ok_iff.mp hrun
  subst ho
  unfold runInit PyModule_Create at hm ⊢
  cases hc : R.createOk with
  | false => simp [hc] at hm
  | true =>
    simp only [hc, if_true, Option.some.injEq] at hm ⊢
    refine ⟨trivial, ?_, hm.symm⟩
    simp [builtCalls, Function.comp_def]

theorem value_of_declared {H : Headers} {X : String} (h : (H X).isSome = true) :
    ∃ d, H X = some d ∧ H.value X = d.value := by
  cases hX : H X with
  | none => simp [hX] at h
  | some d => exact ⟨d, rfl, by simp [Headers.value, hX]⟩

theorem getattr_of_registered {w : Nat} {H : Headers} {R : Runtime} {o : Outcome} {m : Module}
    (hrun : PyInit_constants w H R = Except.ok o) (hm : o.ret = some m) {j : Nat} {X : String}
    (hj : o.registrations[j]? = some X) (hok : R.addOk j = true) :
    ∃ d, H X = some d ∧ m.getattr X = some (toLong w d.value) := by
  obtain ⟨hall, _⟩ := PyInit_constants_eq_ok_iff.mp hrun
  obtain ⟨_, hreg, hmod⟩ := loaded_spec hrun hm
  rw [hreg] at hj
  have hmem : X ∈ preprocess H PyInit_constants_body := List.getElem?_mem hj
  obtain ⟨d, hd, hv⟩ := value_of_declared (hall X hmem)
  refine ⟨d, hd, ?_⟩
  rw [hmod, ← hv]
  exact runCalls_getattr_of_ok R (fun n => toLong w (H.value n)) _ 0 _ X j hj (by simpa using hok)

theorem registered_of_getattr {w : Nat} {H : Headers} {R : Runtime} {o : Outcome} {m : Module}
    (hrun : PyInit_constants w H R = Except.ok o) (hm : o.ret = some m) {X : String} {v : Int}
    (h : m.getattr X = some v) :
    ∃ j d, o.registrations[j]? = some X ∧ R.addOk j = true ∧ H X = some d ∧
      v = toLong w d.value := by
  obtain ⟨hall, _⟩ := PyInit_constants_eq_ok_iff.mp hrun
  obtain ⟨_, hreg, hmod⟩ := loaded_spec hrun hm
  rw [hmod] at h
  rcases runCalls_getattr_some R (fun n => toLong w (H.value n)) _ 0 _ X v h with h0 | ⟨hv, j, hj, hok⟩
  · rw [getattr_constants_module] at h0
    exact nomatch h0
  · have hmem : X ∈ preprocess H PyInit_constants_body := List.getElem?_mem hj
    obtain ⟨d, hd, hval⟩ := value_of_declared (hall X hmem)
    refine ⟨j, d, by rw [hreg]; exact hj, by simpa using hok, hd, ?_⟩
    rw [hv, hval]

theorem toLong_of_fits {w : Nat} {v : Int} (hw : 0 < w) (h : fitsLong w v) : toLong w v = v := by
  obtain ⟨h1, h2⟩ := h
  have hp : (2 : Int) ^ w = 2 * 2 ^ (w - 1) := by
    obtain ⟨k, rfl⟩ : ∃ k, w = k + 1 := ⟨w - 1, by omega⟩
    simp [pow_succ, mul_comm]
  have hpos : (0 : Int) < 2 ^ (w - 1) := by positivity
  unfold toLong
  rw [Int.emod_eq_of_lt (by omega) (by omega)]
  omega

/-! ## Facts about the source text and about the Linux 6.1 headers -/

theorem lookup_isSome_of_mem_keys {l : List (String × Decl)} {n : String}
    (h : n ∈ l.map Prod.fst) : (Headers.ofList l n).isSome = true := by
  unfold Headers.ofList
  rw [List.lookup_isSome_iff]
  obtain ⟨p, hp, rfl⟩ := List.mem_map.mp h
  exact ⟨p, hp, by simp⟩

theorem mem_of_lookup {l : List (String × Decl)} {n : String} {d : Decl}
    (h : Headers.ofList l n = some d) : (n, d) ∈ l := by
  unfold Headers.ofList at h
  induction l with
  | nil => simp at h
  | cons p l ih =>
    obtain ⟨a, b⟩ := p
    rw [List.lookup_cons] at h
    by_cases hna : n = a
    · subst hna
      simp at h
      simp [h]
    · have hb : (n == a) = false := by simpa using hna
      rw [hb] at h
      exact List.mem_cons_of_mem _ (ih h)

/-- Every statement the preprocessor leaves under the Linux 6.1 headers names an
identifier of the table, in table order. -/
theorem linux_6_1_sublist :
    List.Sublist (preprocess linux_6_1 PyInit_constants_body) (linux_6_1_decls.map Prod.fst) := by
  decide!

theorem linux_6_1_declares :
    ∀ n ∈ preprocess linux_6_1 PyInit_constants_body, (linux_6_1 n).isSome = true :=
  fun _ hn => lookup_isSome_of_mem_keys (linux_6_1_sublist.subset hn)

theorem linux_6_1_fits_decls : ∀ p ∈ linux_6_1_decls, fitsLong 64 p.2.value := by
  decide!

theorem linux_6_1_fits (X : String) (d : Decl) (h : linux_6_1 X = some d) :
    fitsLong 64 d.value :=
  linux_6_1_fits_decls (X, d) (mem_of_lookup h)

theorem PyInit_constants_linux_6_1 (w : Nat) (R : Runtime) :
    PyInit_constants w linux_6_1 R = Except.ok (runInit R (builtCalls w linux_6_1)) :=
  PyInit_constants_eq_ok_iff.mpr ⟨linux_6_1_declares, rfl⟩

/-- Each guarded block holds just its guard, except the tunnel block. -/
theorem ifdef_shape :
    ∀ it ∈ PyInit_constants_body,
      it.guarded = [] ∨ it.guard?.map (fun g => [g]) = some it.guarded ∨
        it = Item.ifdef "RTM_NEWTUNNEL" ["RTM_NEWTUNNEL", "RTM_DELTUNNEL", "RTM_GETTUNNEL"] := by
  decide!

/-- A name inside a guarded block occurs nowhere else in the body: any item naming
it has the same guard. -/
theorem guarded_once :
    ∀ it ∈ PyInit_constants_body, ∀ X ∈ it.guarded, ∀ it2 ∈ PyInit_constants_body,
      X ∈ it2.names → it2.guard? = it.guard? := by
  decide!

theorem isSome_of_ifdefTest {H : Headers} {g : String} (h : ifdefTest H g = true) :
    (H g).isSome = true := by
  unfold ifdefTest at h
  cases hg : H g with
  | none => simp [hg] at h
  | some d => rfl

theorem guarded_mem_preprocess_iff {H : Headers} (g : String) (ns : List String) {X : String}
    (hit : Item.ifdef g ns ∈ PyInit_constants_body) (hX : X ∈ ns) :
    X ∈ preprocess H PyInit_constants_body ↔ ifdefTest H g = true := by
  rw [mem_preprocess_iff]
  constructor
  · rintro (h | ⟨g2, ns2, hit2, hX2, hg2⟩)
    · have := guarded_once _ hit X hX _ h (by simp [Item.names])
      simp [Item.guard?] at this
    · have := guarded_once _ hit X hX _ hit2 (by simpa [Item.names] using hX2)
      simp only [Item.guard?, Option.some.injEq] at this
      rw [← this]
      exact hg2
  · intro hg
    exact Or.inr ⟨g, ns, hit, hX, hg⟩

theorem declares_of_baseline {H : Headers}
    (hbase : ∀ n, Item.addIntMacro n ∈ PyInit_constants_body → (H n).isSome = true)
    (htun : ifdefTest H "RTM_NEWTUNNEL" = true →
      (H "RTM_DELTUNNEL").isSome = true ∧ (H "RTM_GETTUNNEL").isSome = true) :
    ∀ n ∈ preprocess H PyInit_constants_body, (H n).isSome = true := by
  intro n hn
  rcases mem_preprocess_iff.mp hn with h | ⟨g, ns, hit, hmem, hg⟩
  · exact hbase n h
  · rcases ifdef_shape _ hit with h0 | h1 | h2
    · simp only [Item.guarded] at h0
      subst h0
      simp at hmem
    · simp only [Item.guard?, Item.guarded, Option.map_some', Option.some.injEq] at h1
      subst h1
      simp only [List.mem_singleton] at hmem
      subst hmem
      exact isSome_of_ifdefTest hg
    · simp only [Item.ifdef.injEq] at h2
      obtain ⟨rfl, rfl⟩ := h2
      simp only [List.mem_cons, List.mem_singleton, List.not_mem_nil, or_false] at hmem
      rcases hmem with rfl | rfl | rfl
      · exact isSome_of_ifdefTest hg
      · exact (htun hg).1
      · exact (htun hg).2

theorem getattr_eq_none_of_not_registered {w : Nat} {H : Headers} {R : Runtime} {o : Outcome}
    {m : Module} (hrun : PyInit_constants w H R = Except.ok o) (hm : o.ret = some m)
    {X : String} (hX : X ∉ preprocess H PyInit_constants_body) : m.getattr X = none := by
  cases h : m.getattr X with
  | none => rfl
  | some v =>
    obtain ⟨j, _, hj, _⟩ := registered_of_getattr hrun hm h
    rw [(loaded_spec hrun hm).2.1] at hj
    exact absurd (List.getElem?_mem hj) hX

theorem ifdefTest_without {H : Headers} {xs : List String} {g : String}
    (h : ifdefTest (H.without xs) g = true) : ifdefTest H g = true := by
  unfold ifdefTest Headers.without at h
  by_cases hg : g ∈ xs
  · simp [hg] at h
  · simpa [ifdefTest, hg] using h

theorem preprocess_without_subset {H : Headers} {xs : List String} {src : List Item} {n : String}
    (h : n ∈ preprocess (H.without xs) src) : n ∈ preprocess H src := by
  rcases mem_preprocess_iff.mp h with h1 | ⟨g, ns, hit, hn, hg⟩
  · exact mem_preprocess_iff.mpr (Or.inl h1)
  · exact mem_preprocess_iff.mpr (Or.inr ⟨g, ns, hit, hn, ifdefTest_without hg⟩)

theorem linux_6_1_ret (R : Runtime) (h : R.createOk = true) (w : Nat) :
    (runInit R (builtCalls w linux_6_1)).ret =
      some (runCalls R 0 (builtCalls w linux_6_1) constants_module) := by
  simp [runInit, PyModule_Create, h]

theorem linux_6_1_module_ret :
    (runInit Runtime.allOk (builtCalls 64 linux_6_1)).ret = some linux_6_1_module :=
  linux_6_1_ret Runtime.allOk rfl 64

theorem linux_6_1_baseline :
    ∀ n, Item.addIntMacro n ∈ PyInit_constants_body → (linux_6_1 n).isSome = true :=
  fun n hn => linux_6_1_declares n (mem_preprocess_iff.mpr (Or.inl hn))

/-- On a target whose `long` has 32 bits the value of `RT_TABLE_MAX`, 0xFFFFFFFF, does
not fit and is exported as -1: the fit condition of the value claim is needed. -/
theorem rt_table_max_wraps_on_32_bit_long :
    linux_6_1.value "RT_TABLE_MAX" = 4294967295 ∧
    ∃ m, (runInit Runtime.allOk (builtCalls 32 linux_6_1)).ret = some m ∧
      m.getattr "RT_TABLE_MAX" = some (-1) := by
  have hm := linux_6_1_ret Runtime.allOk rfl 32
  refine ⟨by decide!, _, hm, ?_⟩
  have hj : ∃ j : Nat, (runInit Runtime.allOk (builtCalls 32 linux_6_1)).registrations[j]? =
      some "RT_TABLE_MAX" := by
    apply List.getElem?_of_mem
    rw [(loaded_spec (PyInit_constants_linux_6_1 32 _) hm).2.1]
    exact mem_preprocess_iff.mpr (Or.inl (by decide!))
  obtain ⟨j, hj⟩ := hj
  obtain ⟨d, hd, hv⟩ := getattr_of_registered (PyInit_constants_linux_6_1 32 _) hm hj rfl
  have hd2 : linux_6_1 "RT_TABLE_MAX" = some (Decl.enumerator 4294967295) := by decide!
  rw [hd2] at hd
  rw [hv, ← Option.some.inj hd]
  decide!

/-! ## The claims -/

/-- C1: on a target whose `long` has `w` bits, for headers whose exported values all
fit in a `long`, every registration that succeeds stores under the name `X` exactly the
header's value of `X`, and every integer the module holds under a name `X` is the
header's value of `X`: the conversion to `long` neither truncates nor changes sign. -/
theorem exported_value_eq_header_value (w : Nat) (H : Headers) (R : Runtime) (o : Outcome)
    (m : Module) (hw : 0 < w)
    (hfit : ∀ X ∈ o.registrations, ∀ d, H X = some d → fitsLong w d.value)
    (hrun : PyInit_constants w H R = Except.ok o) (hm : o.ret = some m) :
    (∀ j X, o.registrations[j]? = some X → R.addOk j = true →
      ∃ d, H X = some d ∧ m.getattr X = some d.value) ∧
    (∀ X v, m.getattr X = some v → ∃ d, H X = some d ∧ v = d.value) := by
  constructor
  · intro j X hj hok
    obtain ⟨d, hd, hv⟩ := getattr_of_registered hrun hm hj hok
    refine ⟨d, hd, ?_⟩
    rw [hv, toLong_of_fits hw (hfit X (List.getElem?_mem hj) d hd)]
  · intro X v hv
    obtain ⟨j, d, hj, _, hd, hval⟩ := registered_of_getattr hrun hm hv
    refine ⟨d, hd, ?_⟩
    rw [hval, toLong_of_fits hw (hfit X (List.getElem?_mem hj) d hd)]

/-- Witness of C1: the Linux 6.1 headers on a 64-bit target, every call succeeding. -/
theorem exported_value_eq_header_value_witness :
    (0 < 64) ∧
    (∀ X ∈ (runInit Runtime.allOk (builtCalls 64 linux_6_1)).registrations,
      ∀ d, linux_6_1 X = some d → fitsLong 64 d.value) ∧
    PyInit_constants 64 linux_6_1 Runtime.allOk =
      Except.ok (runInit Runtime.allOk (builtCalls 64 linux_6_1)) ∧
    (runInit Runtime.allOk (builtCalls 64 linux_6_1)).ret = some linux_6_1_module ∧
    ((∀ j X, (runInit Runtime.allOk (builtCalls 64 linux_6_1)).registrations[j]? = some X →
        Runtime.allOk.addOk j = true →
        ∃ d, linux_6_1 X = some d ∧ linux_6_1_module.getattr X = some d.value) ∧
      (∀ X v, linux_6_1_module.getattr X = some v → ∃ d, linux_6_1 X = some d ∧ v = d.value)) :=
  ⟨by decide, fun X _ d h => linux_6_1_fits X d h, PyInit_constants_linux_6_1 64 _,
    linux_6_1_module_ret,
    exported_value_eq_header_value 64 linux_6_1 Runtime.allOk _ linux_6_1_module (by decide)
      (fun X _ d h => linux_6_1_fits X d h) (PyInit_constants_linux_6_1 64 _)
      (linux_6_1_module_ret)⟩

/-- C2: the Linux 6.1 headers declare `NLMSGERR_ATTR_MISS_TYPE` and
`NLMSGERR_ATTR_MISS_NEST` (enumerators 5 and 6, not macros), the build and the load
succeed, and the module has neither attribute: `#ifdef` sees macros only, so the guarded
registrations are dropped although the kernel has the identifiers. -/
theorem enumerator_guard_omits_declared_identifier :
    linux_6_1 "NLMSGERR_ATTR_MISS_TYPE" = some (Decl.enumerator 5) ∧
    linux_6_1 "NLMSGERR_ATTR_MISS_NEST" = some (Decl.enumerator 6) ∧
    PyInit_constants 64 linux_6_1 Runtime.allOk =
      Except.ok (runInit Runtime.allOk (builtCalls 64 linux_6_1)) ∧
    (runInit Runtime.allOk (builtCalls 64 linux_6_1)).ret = some linux_6_1_module ∧
    linux_6_1_module.getattr "NLMSGERR_ATTR_MISS_TYPE" = none ∧
    linux_6_1_module.getattr "NLMSGERR_ATTR_MISS_NEST" = none := by
  have hrun := PyInit_constants_linux_6_1 64 Runtime.allOk
  have hret := linux_6_1_module_ret
  refine ⟨by decide!, by decide!, hrun, hret, ?_, ?_⟩
  · apply getattr_eq_none_of_not_registered hrun hret
    rw [guarded_mem_preprocess_iff "NLMSGERR_ATTR_MISS_TYPE" ["NLMSGERR_ATTR_MISS_TYPE"]
      (by decide!) (by decide!)]
    decide!
  · apply getattr_eq_none_of_not_registered hrun hret
    rw [guarded_mem_preprocess_iff "NLMSGERR_ATTR_MISS_NEST" ["NLMSGERR_ATTR_MISS_NEST"]
      (by decide!) (by decide!)]
    decide!

/-- C3, counterexample: against headers that declare everything the Linux 6.1 headers
declare except the nexthop-bucket message types, the build is a compile error on one of
the three missing identifiers (they are registered outside any `#ifdef`), so no module
is produced at all. -/
theorem build_fails_without_unguarded_identifier :
    linux_no_nexthop_bucket "RTM_NEWNEXTHOPBUCKET" = none ∧
    Item.addIntMacro "RTM_NEWNEXTHOPBUCKET" ∈ PyInit_constants_body ∧
    ∃ e, PyInit_constants 64 linux_no_nexthop_bucket Runtime.allOk = Except.error e ∧
      e ∈ ["RTM_NEWNEXTHOPBUCKET", "RTM_DELNEXTHOPBUCKET", "RTM_GETNEXTHOPBUCKET"] := by
  have hnone : linux_no_nexthop_bucket "RTM_NEWNEXTHOPBUCKET" = none := by
    simp [linux_no_nexthop_bucket, Headers.without]
  have hmem : Item.addIntMacro "RTM_NEWNEXTHOPBUCKET" ∈ PyInit_constants_body := by decide!
  refine ⟨hnone, hmem, ?_⟩
  obtain ⟨e, he, hpre, hH⟩ :=
    PyInit_constants_error_of_undeclared (w := 64) Runtime.allOk
      (mem_preprocess_iff.mpr (Or.inl hmem)) hnone
  refine ⟨e, he, ?_⟩
  have hdecl := linux_6_1_declares e (preprocess_without_subset hpre)
  by_contra hnot
  simp only [linux_no_nexthop_bucket, Headers.without, if_neg hnot] at hH
  rw [hH] at hdecl
  exact absurd hdecl (by simp)

/-- C3, amended: for every header set that declares each identifier registered outside
an `#ifdef` block, and declares `RTM_DELTUNNEL` and `RTM_GETTUNNEL` whenever it defines
the macro `RTM_NEWTUNNEL`, the build succeeds whatever else is missing; the load returns
`NULL` only when `PyModule_Create` fails; and an identifier the headers do not declare
is absent from the module. -/
theorem build_succeeds_on_baseline_headers (w : Nat) (H : Headers) (R : Runtime)
    (hbase : ∀ n, Item.addIntMacro n ∈ PyInit_constants_body → (H n).isSome = true)
    (htun : ifdefTest H "RTM_NEWTUNNEL" = true →
      (H "RTM_DELTUNNEL").isSome = true ∧ (H "RTM_GETTUNNEL").isSome = true) :
    ∃ o, PyInit_constants w H R = Except.ok o ∧
      (o.ret = none ↔ R.createOk = false) ∧
      ∀ m, o.ret = some m → ∀ X, H X = none → m.getattr X = none := by
  have hrun : PyInit_constants w H R = Except.ok (runInit R (builtCalls w H)) :=
    PyInit_constants_eq_ok_iff.mpr ⟨declares_of_baseline hbase htun, rfl⟩
  refine ⟨_, hrun, ?_, ?_⟩
  · unfold runInit PyModule_Create
    cases R.createOk <;> simp
  · intro m hm X hX
    cases h : m.getattr X with
    | none => rfl
    | some v =>
      obtain ⟨_, d, _, _, hd, _⟩ := registered_of_getattr hrun hm h
      rw [hX] at hd
      exact nomatch hd

/-- Witness of C3 (amended): the Linux 6.1 headers, which lack `NL_ATTR_TYPE_SINT`. -/
theorem build_succeeds_on_baseline_headers_witness :
    (∀ n, Item.addIntMacro n ∈ PyInit_constants_body → (linux_6_1 n).isSome = true) ∧
    (ifdefTest linux_6_1 "RTM_NEWTUNNEL" = true →
      (linux_6_1 "RTM_DELTUNNEL").isSome = true ∧ (linux_6_1 "RTM_GETTUNNEL").isSome = true) ∧
    linux_6_1 "NL_ATTR_TYPE_SINT" = none ∧
    ∃ o, PyInit_constants 64 linux_6_1 Runtime.allOk = Except.ok o ∧
      (o.ret = none ↔ Runtime.allOk.createOk = false) ∧
      ∀ m, o.ret = some m → ∀ X, linux_6_1 X = none → m.getattr X = none :=
  ⟨linux_6_1_baseline, fun _ => by decide!, by decide!,
    build_succeeds_on_baseline_headers 64 linux_6_1 Runtime.allOk linux_6_1_baseline
      (fun _ => by decide!)⟩

theorem getattr_of_unguarded {w : Nat} {H : Headers} {R : Runtime} {o : Outcome} {m : Module}
    (hrun : PyInit_constants w H R = Except.ok o) (hm : o.ret = some m) {X : String}
    (hX : Item.addIntMacro X ∈ PyInit_constants_body)
    (hadd : ∀ j, o.registrations[j]? = some X → R.addOk j = true) :
    ∃ d, H X = some d ∧ m.getattr X = some (toLong w d.value) := by
  have hmem : X ∈ o.registrations := by
    rw [(loaded_spec hrun hm).2.1]
    exact mem_preprocess_iff.mpr (Or.inl hX)
  obtain ⟨j, hj⟩ := List.getElem?_of_mem hmem
  exact getattr_of_registered hrun hm hj (hadd j hj)

theorem getattr_of_unguarded_value {w : Nat} {H : Headers} {R : Runtime} {o : Outcome}
    {m : Module} (hrun : PyInit_constants w H R = Except.ok o) (hm : o.ret = some m)
    {X : String} (hX : Item.addIntMacro X ∈ PyInit_constants_body)
    (hadd : ∀ j, o.registrations[j]? = some X → R.addOk j = true) :
    m.getattr X = some (toLong w (H.value X)) := by
  obtain ⟨d, hd, hv⟩ := getattr_of_unguarded hrun hm hX hadd
  rw [hv, Headers.value, hd]

theorem fitsLong_of_bound {w : Nat} {v : Int} (k : Nat) (hw : k + 1 ≤ w)
    (h1 : -(2 ^ k : Int) ≤ v) (h2 : v < 2 ^ k) : fitsLong w v := by
  have hp : (2 : Int) ^ k ≤ 2 ^ (w - 1) := pow_le_pow_right₀ (by norm_num) (by omega)
  constructor <;> omega

theorem ldiff_flags_eq_and_mask (t : Nat) (ht : t < 2 ^ 16) :
    Nat.ldiff t 49152 = t &&& 16383 := by
  apply Nat.eq_of_testBit_eq
  intro i
  rw [Nat.testBit_ldiff, Nat.testBit_and]
  by_cases hi : i < 16
  · have hbit : (!Nat.testBit 49152 i) = Nat.testBit 16383 i := by
      interval_cases i <;> decide
    rw [hbit]
  · have hlt : t < 2 ^ i := lt_of_lt_of_le ht (Nat.pow_le_pow_right (by norm_num) (by omega))
    rw [Nat.testBit_lt_two_pow hlt]
    simp

/-- C4, counterexample: built against the Linux 6.1 headers, where `linux/netlink.h` has
`#define NLA_F_NESTED (1 << 15)` and `#define NLA_F_NET_BYTEORDER (1 << 14)`, the module
exports `NLA_F_NET_BYTEORDER` as 0x4000 (bit 14) and `NLA_F_NESTED` as 0x8000 (bit 15),
the two bits the other way round from the claim. -/
theorem nla_flags_on_linux_headers :
    PyInit_constants 64 linux_6_1 Runtime.allOk =
      Except.ok (runInit Runtime.allOk (builtCalls 64 linux_6_1)) ∧
    (runInit Runtime.allOk (builtCalls 64 linux_6_1)).ret = some linux_6_1_module ∧
    linux_6_1_module.getattr "NLA_F_NET_BYTEORDER" = some 0x4000 ∧
    linux_6_1_module.getattr "NLA_F_NESTED" = some 0x8000 ∧
    linux_6_1_module.getattr "NLA_F_NET_BYTEORDER" ≠ some 0x8000 ∧
    linux_6_1_module.getattr "NLA_F_NESTED" ≠ some 0x4000 := by
  have hrun := PyInit_constants_linux_6_1 64 Runtime.allOk
  have hret := linux_6_1_module_ret
  have h1 : linux_6_1_module.getattr "NLA_F_NET_BYTEORDER" = some 0x4000 := by
    rw [getattr_of_unguarded_value hrun hret (by decide!) (fun _ _ => rfl)]
    decide!
  have h2 : linux_6_1_module.getattr "NLA_F_NESTED" = some 0x8000 := by
    rw [getattr_of_unguarded_value hrun hret (by decide!) (fun _ _ => rfl)]
    decide!
  refine ⟨hrun, hret, h1, h2, ?_, ?_⟩
  · rw [h1]; decide
  · rw [h2]; decide

/-- C4, amended: for headers that give the three identifiers their Linux values
(`NLA_F_NESTED = 1 << 15`, `NLA_F_NET_BYTEORDER = 1 << 14`,
`NLA_TYPE_MASK = ~(NLA_F_NESTED | NLA_F_NET_BYTEORDER)`, which is -49153), on a target
whose `long` has at least 17 bits, the module exports `NLA_F_NESTED` as bit 15 (0x8000),
`NLA_F_NET_BYTEORDER` as bit 14 (0x4000), and an `NLA_TYPE_MASK` that selects exactly
bits 0-13: for every 16-bit `t`, `t AND NLA_TYPE_MASK = t AND 0x3FFF`. -/
theorem nla_flag_layout (w : Nat) (H : Headers) (R : Runtime) (o : Outcome) (m : Module)
    (hw : 17 ≤ w)
    (hnested : H.value "NLA_F_NESTED" = 2 ^ 15)
    (hbyteorder : H.value "NLA_F_NET_BYTEORDER" = 2 ^ 14)
    (hmask : H.value "NLA_TYPE_MASK" = -(2 ^ 15 + 2 ^ 14) - 1)
    (hrun : PyInit_constants w H R = Except.ok o) (hm : o.ret = some m)
    (hadd : ∀ j, R.addOk j = true) :
    m.getattr "NLA_F_NESTED" = some 0x8000 ∧
    m.getattr "NLA_F_NET_BYTEORDER" = some 0x4000 ∧
    ∃ mask, m.getattr "NLA_TYPE_MASK" = some mask ∧
      ∀ t : Nat, t < 2 ^ 16 → Int.land (t : Int) mask = Int.land (t : Int) 0x3FFF := by
  refine ⟨?_, ?_, -49153, ?_, ?_⟩
  · rw [getattr_of_unguarded_value hrun hm (by decide!) (fun j _ => hadd j), hnested,
      toLong_of_fits (by omega) (fitsLong_of_bound 16 hw (by norm_num) (by norm_num))]
    norm_num
  · rw [getattr_of_unguarded_value hrun hm (by decide!) (fun j _ => hadd j), hbyteorder,
      toLong_of_fits (by omega) (fitsLong_of_bound 16 hw (by norm_num) (by norm_num))]
    norm_num
  · rw [getattr_of_unguarded_value hrun hm (by decide!) (fun j _ => hadd j), hmask,
      toLong_of_fits (by omega) (fitsLong_of_bound 16 hw (by norm_num) (by norm_num))]
    norm_num
  · intro t ht
    show Int.land (Int.ofNat t) (Int.negSucc 49152) = Int.land (Int.ofNat t) (Int.ofNat 16383)
    simp only [Int.land]
    rw [ldiff_flags_eq_and_mask t ht]

/-- Witness of C4 (amended): the Linux 6.1 headers on a 64-bit target. -/
theorem nla_flag_layout_witness :
    (17 ≤ 64) ∧
    linux_6_1.value "NLA_F_NESTED" = 2 ^ 15 ∧
    linux_6_1.value "NLA_F_NET_BYTEORDER" = 2 ^ 14 ∧
    linux_6_1.value "NLA_TYPE_MASK" = -(2 ^ 15 + 2 ^ 14) - 1 ∧
    PyInit_constants 64 linux_6_1 Runtime.allOk =
      Except.ok (runInit Runtime.allOk (builtCalls 64 linux_6_1)) ∧
    (runInit Runtime.allOk (builtCalls 64 linux_6_1)).ret = some linux_6_1_module ∧
    (∀ j, Runtime.allOk.addOk j = true) ∧
    (linux_6_1_module.getattr "NLA_F_NESTED" = some 0x8000 ∧
      linux_6_1_module.getattr "NLA_F_NET_BYTEORDER" = some 0x4000 ∧
      ∃ mask, linux_6_1_module.getattr "NLA_TYPE_MASK" = some mask ∧
        ∀ t : Nat, t < 2 ^ 16 → Int.land (t : Int) mask = Int.land (t : Int) 0x3FFF) :=
  ⟨by decide, by decide!, by decide!, by decide!, PyInit_constants_linux_6_1 64 _,
    linux_6_1_module_ret, fun _ => rfl,
    nla_flag_layout 64 linux_6_1 Runtime.allOk _ linux_6_1_module (by decide) (by decide!)
      (by decide!) (by decide!) (PyInit_constants_linux_6_1 64 _) (linux_6_1_module_ret)
      (fun _ => rfl)⟩

theorem transaction_names_unguarded :
    ∀ X ∈ ["NLM_F_REQUEST", "NLM_F_MULTI", "NLM_F_ACK", "NLM_F_ECHO", "NLM_F_ROOT",
        "NLM_F_DUMP", "NLM_F_REPLACE", "NLM_F_EXCL", "NLM_F_CREATE", "NLM_F_APPEND",
        "NETLINK_CAP_ACK", "NETLINK_EXT_ACK"],
      Item.addIntMacro X ∈ PyInit_constants_body := by
  decide!

theorem sentinel_names_unguarded :
    ∀ X ∈ ["NLMSG_NOOP", "NLMSG_ERROR", "NLMSG_DONE", "NLMSG_OVERRUN"],
      Item.addIntMacro X ∈ PyInit_constants_body := by
  decide!

/-- C5: each of the ten flag names the Transaction Manager consumes and the two
socket options `NETLINK_CAP_ACK` and `NETLINK_EXT_ACK` is registered by a statement
outside every `#ifdef` block, so the preprocessor keeps it under every header set; and
in every build and load that succeeds, if the registration call succeeds, the module
holds the header's value (as a `long`) under that name. -/
theorem transaction_flags_exported_unconditionally (w : Nat) (H : Headers) (R : Runtime)
    (o : Outcome) (m : Module) (X : String)
    (hX : X ∈ ["NLM_F_REQUEST", "NLM_F_MULTI", "NLM_F_ACK", "NLM_F_ECHO", "NLM_F_ROOT",
      "NLM_F_DUMP", "NLM_F_REPLACE", "NLM_F_EXCL", "NLM_F_CREATE", "NLM_F_APPEND",
      "NETLINK_CAP_ACK", "NETLINK_EXT_ACK"])
    (hrun : PyInit_constants w H R = Except.ok o) (hm : o.ret = some m)
    (hadd : ∀ j, o.registrations[j]? = some X → R.addOk j = true) :
    Item.addIntMacro X ∈ PyInit_constants_body ∧
    (∀ H2 : Headers, X ∈ preprocess H2 PyInit_constants_body) ∧
    X ∈ o.registrations ∧
    ∃ d, H X = some d ∧ m.getattr X = some (toLong w d.value) := by
  have hu := transaction_names_unguarded X hX
  refine ⟨hu, fun H2 => mem_preprocess_iff.mpr (Or.inl hu), ?_,
    getattr_of_unguarded hrun hm hu hadd⟩
  rw [(loaded_spec hrun hm).2.1]
  exact mem_preprocess_iff.mpr (Or.inl hu)

/-- Witness of C5: `NETLINK_EXT_ACK` under the Linux 6.1 headers. -/
theorem transaction_flags_exported_unconditionally_witness :
    "NETLINK_EXT_ACK" ∈ ["NLM_F_REQUEST", "NLM_F_MULTI", "NLM_F_ACK", "NLM_F_ECHO",
      "NLM_F_ROOT", "NLM_F_DUMP", "NLM_F_REPLACE", "NLM_F_EXCL", "NLM_F_CREATE",
      "NLM_F_APPEND", "NETLINK_CAP_ACK", "NETLINK_EXT_ACK"] ∧
    PyInit_constants 64 linux_6_1 Runtime.allOk =
      Except.ok (runInit Runtime.allOk (builtCalls 64 linux_6_1)) ∧
    (runInit Runtime.allOk (builtCalls 64 linux_6_1)).ret = some linux_6_1_module ∧
    (∀ j, (runInit Runtime.allOk (builtCalls 64 linux_6_1)).registrations[j]? =
      some "NETLINK_EXT_ACK" → Runtime.allOk.addOk j = true) ∧
    (Item.addIntMacro "NETLINK_EXT_ACK" ∈ PyInit_constants_body ∧
      (∀ H2 : Headers, "NETLINK_EXT_ACK" ∈ preprocess H2 PyInit_constants_body) ∧
      "NETLINK_EXT_ACK" ∈ (runInit Runtime.allOk (builtCalls 64 linux_6_1)).registrations ∧
      ∃ d, linux_6_1 "NETLINK_EXT_ACK" = some d ∧
        linux_6_1_module.getattr "NETLINK_EXT_ACK" = some (toLong 64 d.value)) :=
  ⟨by decide!, PyInit_constants_linux_6_1 64 _, linux_6_1_module_ret, fun _ _ => rfl,
    transaction_flags_exported_unconditionally 64 linux_6_1 Runtime.allOk _ linux_6_1_module
      "NETLINK_EXT_ACK" (by decide!) (PyInit_constants_linux_6_1 64 _) linux_6_1_module_ret
      (fun _ _ => rfl)⟩

/-- C6: the four sentinel message types `NLMSG_NOOP`, `NLMSG_ERROR`, `NLMSG_DONE` and
`NLMSG_OVERRUN` are registered outside every `#ifdef` block under four distinct names;
for headers that give them four pairwise distinct values that fit in a `long`, a module
whose registrations succeeded holds each header value under its name, so the four
exported values are pairwise distinct. -/
theorem sentinel_types_exported_distinct (w : Nat) (H : Headers) (R : Runtime) (o : Outcome)
    (m : Module) (hw : 0 < w)
    (hfit : ∀ X ∈ ["NLMSG_NOOP", "NLMSG_ERROR", "NLMSG_DONE", "NLMSG_OVERRUN"],
      fitsLong w (H.value X))
    (hdist : (["NLMSG_NOOP", "NLMSG_ERROR", "NLMSG_DONE", "NLMSG_OVERRUN"].map H.value).Nodup)
    (hrun : PyInit_constants w H R = Except.ok o) (hm : o.ret = some m)
    (hadd : ∀ j, R.addOk j = true) :
    (∀ X ∈ ["NLMSG_NOOP", "NLMSG_ERROR", "NLMSG_DONE", "NLMSG_OVERRUN"],
      Item.addIntMacro X ∈ PyInit_constants_body ∧ m.getattr X = some (H.value X)) ∧
    ["NLMSG_NOOP", "NLMSG_ERROR", "NLMSG_DONE", "NLMSG_OVERRUN"].Nodup ∧
    (["NLMSG_NOOP", "NLMSG_ERROR", "NLMSG_DONE", "NLMSG_OVERRUN"].map m.getattr).Nodup := by
  have hget : ∀ X ∈ ["NLMSG_NOOP", "NLMSG_ERROR", "NLMSG_DONE", "NLMSG_OVERRUN"],
      m.getattr X = some (H.value X) := by
    intro X hX
    rw [getattr_of_unguarded_value hrun hm (sentinel_names_unguarded X hX) (fun j _ => hadd j),
      toLong_of_fits hw (hfit X hX)]
  refine ⟨fun X hX => ⟨sentinel_names_unguarded X hX, hget X hX⟩, by decide, ?_⟩
  have hmap : ["NLMSG_NOOP", "NLMSG_ERROR", "NLMSG_DONE", "NLMSG_OVERRUN"].map m.getattr =
      (["NLMSG_NOOP", "NLMSG_ERROR", "NLMSG_DONE", "NLMSG_OVERRUN"].map H.value).map some := by
    rw [List.map_map]
    exact List.map_congr_left hget
  rw [hmap]
  exact hdist.map (Option.some_injective _)

/-- Witness of C6: the Linux 6.1 headers, where the four values are 1, 2, 3 and 4. -/
theorem sentinel_types_exported_distinct_witness :
    (0 < 64) ∧
    (∀ X ∈ ["NLMSG_NOOP", "NLMSG_ERROR", "NLMSG_DONE", "NLMSG_OVERRUN"],
      fitsLong 64 (linux_6_1.value X)) ∧
    ["NLMSG_NOOP", "NLMSG_ERROR", "NLMSG_DONE", "NLMSG_OVERRUN"].map linux_6_1.value =
      [1, 2, 3, 4] ∧
    (["NLMSG_NOOP", "NLMSG_ERROR", "NLMSG_DONE", "NLMSG_OVERRUN"].map linux_6_1.value).Nodup ∧
    PyInit_constants 64 linux_6_1 Runtime.allOk =
      Except.ok (runInit Runtime.allOk (builtCalls 64 linux_6_1)) ∧
    (runInit Runtime.allOk (builtCalls 64 linux_6_1)).ret = some linux_6_1_module ∧
    (∀ j, Runtime.allOk.addOk j = true) ∧
    ((∀ X ∈ ["NLMSG_NOOP", "NLMSG_ERROR", "NLMSG_DONE", "NLMSG_OVERRUN"],
        Item.addIntMacro X ∈ PyInit_constants_body ∧
          linux_6_1_module.getattr X = some (linux_6_1.value X)) ∧
      ["NLMSG_NOOP", "NLMSG_ERROR", "NLMSG_DONE", "NLMSG_OVERRUN"].Nodup ∧
      (["NLMSG_NOOP", "NLMSG_ERROR", "NLMSG_DONE", "NLMSG_OVERRUN"].map
        linux_6_1_module.getattr).Nodup) :=
  ⟨by decide, by decide!, by decide!, by decide!, PyInit_constants_linux_6_1 64 _,
    linux_6_1_module_ret, fun _ => rfl,
    sentinel_types_exported_distinct 64 linux_6_1 Runtime.allOk _ linux_6_1_module (by decide)
      (by decide!) (by decide!) (PyInit_constants_linux_6_1 64 _) linux_6_1_module_ret
      (fun _ => rfl)⟩

/-- C7: `RTA_DST` is registered outside every `#ifdef` block, and for headers that give
it the value 1 (as `linux/rtnetlink.h` does) on a target whose `long` has at least two
bits, a module whose registration of it succeeded holds 1 under the name `RTA_DST`. -/
theorem rta_dst_exported_as_one (w : Nat) (H : Headers) (R : Runtime) (o : Outcome)
    (m : Module) (hw : 2 ≤ w) (hval : H.value "RTA_DST" = 1)
    (hrun : PyInit_constants w H R = Except.ok o) (hm : o.ret = some m)
    (hadd : ∀ j, o.registrations[j]? = some "RTA_DST" → R.addOk j = true) :
    Item.addIntMacro "RTA_DST" ∈ PyInit_constants_body ∧ m.getattr "RTA_DST" = some 1 := by
  have hu : Item.addIntMacro "RTA_DST" ∈ PyInit_constants_body := by decide!
  refine ⟨hu, ?_⟩
  rw [getattr_of_unguarded_value hrun hm hu hadd, hval,
    toLong_of_fits (by omega) (fitsLong_of_bound 1 hw (by norm_num) (by norm_num))]

/-- Witness of C7: the Linux 6.1 headers, where `RTA_DST` is the enumerator 1. -/
theorem rta_dst_exported_as_one_witness :
    (2 ≤ 64) ∧
    linux_6_1 "RTA_DST" = some (Decl.enumerator 1) ∧
    linux_6_1.value "RTA_DST" = 1 ∧
    PyInit_constants 64 linux_6_1 Runtime.allOk =
      Except.ok (runInit Runtime.allOk (builtCalls 64 linux_6_1)) ∧
    (runInit Runtime.allOk (builtCalls 64 linux_6_1)).ret = some linux_6_1_module ∧
    (∀ j, (runInit Runtime.allOk (builtCalls 64 linux_6_1)).registrations[j]? =
      some "RTA_DST" → Runtime.allOk.addOk j = true) ∧
    (Item.addIntMacro "RTA_DST" ∈ PyInit_constants_body ∧
      linux_6_1_module.getattr "RTA_DST" = some 1) :=
  ⟨by decide, by decide!, by decide!, PyInit_constants_linux_6_1 64 _, linux_6_1_module_ret,
    fun _ _ => rfl,
    rta_dst_exported_as_one 64 linux_6_1 Runtime.allOk _ linux_6_1_module (by decide)
      (by decide!) (PyInit_constants_linux_6_1 64 _) linux_6_1_module_ret (fun _ _ => rfl)⟩

theorem isSome_getattr_iff {w : Nat} {H : Headers} {R : Runtime} {o : Outcome} {m : Module}
    (hrun : PyInit_constants w H R = Except.ok o) (hm : o.ret = some m)
    (hadd : ∀ j, R.addOk j = true) (X : String) :
    (m.getattr X).isSome = true ↔ X ∈ preprocess H PyInit_constants_body := by
  have hreg := (loaded_spec hrun hm).2.1
  constructor
  · intro h
    obtain ⟨v, hv⟩ := Option.isSome_iff_exists.mp h
    obtain ⟨j, _, hj, _⟩ := registered_of_getattr hrun hm hv
    rw [hreg] at hj
    exact List.getElem?_mem hj
  · intro h
    rw [← hreg] at h
    obtain ⟨j, hj⟩ := List.getElem?_of_mem h
    obtain ⟨d, _, hv⟩ := getattr_of_registered hrun hm hj (hadd j)
    rw [hv]
    rfl

theorem declares_without_guard {H : Headers} {g : String}
    (hH : ∀ n ∈ preprocess H PyInit_constants_body, (H n).isSome = true)
    (hg : Item.ifdef g [g] ∈ PyInit_constants_body) :
    ∀ n ∈ preprocess (H.without [g]) PyInit_constants_body, ((H.without [g]) n).isSome = true := by
  intro n hn
  have hne : n ≠ g := by
    rintro rfl
    have := (guarded_mem_preprocess_iff n [n] hg (by simp)).mp hn
    simp [ifdefTest, Headers.without] at this
  have h := hH n (preprocess_without_subset hn)
  simpa [Headers.without, hne] using h

theorem without_guard_eq_on_unguarded {H : Headers} {g : String} {ns : List String}
    (hg : Item.ifdef g ns ∈ PyInit_constants_body) (hmem : g ∈ ns) :
    ∀ X, Item.addIntMacro X ∈ PyInit_constants_body → H X = (H.without [g]) X := by
  intro X hX
  have hne : X ≠ g := by
    rintro rfl
    have := guarded_once _ hg X hmem _ hX (by simp [Item.names])
    simp [Item.guard?] at this
  simp [Headers.without, hne]

theorem PyInit_constants_linux_no_bulk (w : Nat) (R : Runtime) :
    PyInit_constants w linux_no_bulk R = Except.ok (runInit R (builtCalls w linux_no_bulk)) :=
  PyInit_constants_eq_ok_iff.mpr
    ⟨declares_without_guard linux_6_1_declares (by decide!), rfl⟩

theorem linux_no_bulk_module_ret :
    (runInit Runtime.allOk (builtCalls 64 linux_no_bulk)).ret = some linux_no_bulk_module := by
  simp [runInit, PyModule_Create, Runtime.allOk, linux_no_bulk_module]

/-- C8: in a module whose registrations all succeeded, the exported names are exactly
the names registered outside `#ifdef` blocks together with the names of the blocks whose
guard macro is defined.  For two header sets that declare the unguarded identifiers
alike, every unguarded name is exported by both modules with the same value; a name
inside a guarded block is exported exactly when the guard of that block is a defined
macro, so `RTM_NEWTUNNEL`, `RTM_DELTUNNEL` and `RTM_GETTUNNEL` all follow the one guard
`RTM_NEWTUNNEL`; and the source has 14 guarded blocks. -/
theorem exported_names_follow_guards (w : Nat) (H₁ H₂ : Headers) (R₁ R₂ : Runtime)
    (o₁ o₂ : Outcome) (m₁ m₂ : Module)
    (hsame : ∀ X, Item.addIntMacro X ∈ PyInit_constants_body → H₁ X = H₂ X)
    (hrun₁ : PyInit_constants w H₁ R₁ = Except.ok o₁) (hm₁ : o₁.ret = some m₁)
    (hadd₁ : ∀ j, R₁.addOk j = true)
    (hrun₂ : PyInit_constants w H₂ R₂ = Except.ok o₂) (hm₂ : o₂.ret = some m₂)
    (hadd₂ : ∀ j, R₂.addOk j = true) :
    (∀ X, (m₁.getattr X).isSome = true ↔
      (Item.addIntMacro X ∈ PyInit_constants_body ∨
        ∃ g ns, Item.ifdef g ns ∈ PyInit_constants_body ∧ X ∈ ns ∧ ifdefTest H₁ g = true)) ∧
    (∀ X, (m₂.getattr X).isSome = true ↔
      (Item.addIntMacro X ∈ PyInit_constants_body ∨
        ∃ g ns, Item.ifdef g ns ∈ PyInit_constants_body ∧ X ∈ ns ∧ ifdefTest H₂ g = true)) ∧
    (∀ X, Item.addIntMacro X ∈ PyInit_constants_body →
      (m₁.getattr X).isSome = true ∧ m₁.getattr X = m₂.getattr X) ∧
    (∀ g ns X, Item.ifdef g ns ∈ PyInit_constants_body → X ∈ ns →
      ((m₁.getattr X).isSome = true ↔ ifdefTest H₁ g = true) ∧
      ((m₂.getattr X).isSome = true ↔ ifdefTest H₂ g = true)) ∧
    (∀ X ∈ ["RTM_NEWTUNNEL", "RTM_DELTUNNEL", "RTM_GETTUNNEL"],
      ((m₁.getattr X).isSome = true ↔ ifdefTest H₁ "RTM_NEWTUNNEL" = true) ∧
      ((m₂.getattr X).isSome = true ↔ ifdefTest H₂ "RTM_NEWTUNNEL" = true)) ∧
    (PyInit_constants_body.filter (fun it => it.guard?.isSome)).length = 14 := by
  have hg : ∀ g ns X, Item.ifdef g ns ∈ PyInit_constants_body → X ∈ ns →
      ((m₁.getattr X).isSome = true ↔ ifdefTest H₁ g = true) ∧
      ((m₂.getattr X).isSome = true ↔ ifdefTest H₂ g = true) := by
    intro g ns X hit hX
    exact ⟨(isSome_getattr_iff hrun₁ hm₁ hadd₁ X).trans (guarded_mem_preprocess_iff g ns hit hX),
      (isSome_getattr_iff hrun₂ hm₂ hadd₂ X).trans (guarded_mem_preprocess_iff g ns hit hX)⟩
  refine ⟨fun X => (isSome_getattr_iff hrun₁ hm₁ hadd₁ X).trans mem_preprocess_iff,
    fun X => (isSome_getattr_iff hrun₂ hm₂ hadd₂ X).trans mem_preprocess_iff, ?_, hg, ?_,
    by decide!⟩
  · intro X hX
    have h1 := getattr_of_unguarded_value hrun₁ hm₁ hX (fun j _ => hadd₁ j)
    have h2 := getattr_of_unguarded_value hrun₂ hm₂ hX (fun j _ => hadd₂ j)
    refine ⟨by rw [h1]; rfl, ?_⟩
    rw [h1, h2, Headers.value, Headers.value, hsame X hX]
  · intro X hX
    exact hg "RTM_NEWTUNNEL" ["RTM_NEWTUNNEL", "RTM_DELTUNNEL", "RTM_GETTUNNEL"] X
      (by decide!) hX

/-- Witness of C8: the Linux 6.1 headers and the same headers without the macro
`NLM_F_BULK`.  The first module exports `NLM_F_BULK`, the second does not, and both
export `NLM_F_REQUEST` with the same value. -/
theorem exported_names_follow_guards_witness :
    (∀ X, Item.addIntMacro X ∈ PyInit_constants_body → linux_6_1 X = linux_no_bulk X) ∧
    PyInit_constants 64 linux_6_1 Runtime.allOk =
      Except.ok (runInit Runtime.allOk (builtCalls 64 linux_6_1)) ∧
    (runInit Runtime.allOk (builtCalls 64 linux_6_1)).ret = some linux_6_1_module ∧
    PyInit_constants 64 linux_no_bulk Runtime.allOk =
      Except.ok (runInit Runtime.allOk (builtCalls 64 linux_no_bulk)) ∧
    (runInit Runtime.allOk (builtCalls 64 linux_no_bulk)).ret = some linux_no_bulk_module ∧
    (∀ j, Runtime.allOk.addOk j = true) ∧
    (linux_6_1_module.getattr "NLM_F_BULK").isSome = true ∧
    ¬ (linux_no_bulk_module.getattr "NLM_F_BULK").isSome = true ∧
    (linux_6_1_module.getattr "NLM_F_REQUEST").isSome = true ∧
    linux_6_1_module.getattr "NLM_F_REQUEST" = linux_no_bulk_module.getattr "NLM_F_REQUEST" := by
  have hsame : ∀ X, Item.addIntMacro X ∈ PyInit_constants_body →
      linux_6_1 X = linux_no_bulk X :=
    without_guard_eq_on_unguarded (g := "NLM_F_BULK") (by decide!) (List.mem_singleton.mpr rfl)
  have h := exported_names_follow_guards 64 linux_6_1 linux_no_bulk Runtime.allOk Runtime.allOk
    _ _ linux_6_1_module linux_no_bulk_module hsame
    (PyInit_constants_linux_6_1 64 _) linux_6_1_module_ret (fun _ => rfl)
    (PyInit_constants_linux_no_bulk 64 _) linux_no_bulk_module_ret (fun _ => rfl)
  have hb := h.2.2.2.1 "NLM_F_BULK" ["NLM_F_BULK"] "NLM_F_BULK" (by decide!)
    (List.mem_singleton.mpr rfl)
  have hr := h.2.2.1 "NLM_F_REQUEST" (by decide!)
  refine ⟨hsame, PyInit_constants_linux_6_1 64 _, linux_6_1_module_ret,
    PyInit_constants_linux_no_bulk 64 _, linux_no_bulk_module_ret, fun _ => rfl,
    hb.1.mpr (by decide!), ?_, hr.1, hr.2⟩
  intro hsome
  have := hb.2.mp hsome
  simp [ifdefTest, linux_no_bulk, Headers.without] at this

/-- C9: whenever the build succeeds, `PyInit_constants` returns `NULL` exactly when
`PyModule_Create` fails, and then it has made no registration call; when creation
succeeds it returns the module after making every registration call the preprocessor
left, whatever each call's outcome: every call that succeeds leaves its constant in the
module, also after failed ones, and a name whose calls all fail is missing from the
returned module. -/
theorem init_null_iff_create_fails (w : Nat) (H : Headers) (R : Runtime) (o : Outcome)
    (hrun : PyInit_constants w H R = Except.ok o) :
    (o.ret = none ↔ R.createOk = false) ∧
    (R.createOk = false → o.registrations = []) ∧
    (R.createOk = true → ∃ m, o.ret = some m ∧
      o.registrations = preprocess H PyInit_constants_body ∧
      (∀ j X, o.registrations[j]? = some X → R.addOk j = true →
        m.getattr X = some (toLong w (H.value X))) ∧
      (∀ X, (∀ j, o.registrations[j]? = some X → R.addOk j = false) → m.getattr X = none)) := by
  obtain ⟨_, ho⟩ := PyInit_constants_eq_ok_iff.mp hrun
  refine ⟨?_, ?_, ?_⟩
  · subst ho
    unfold runInit PyModule_Create
    cases R.createOk <;> simp
  · intro hc
    subst ho
    simp [runInit, PyModule_Create, hc]
  · intro hc
    have hm : o.ret = some (runCalls R 0 (builtCalls w H) constants_module) := by
      subst ho
      simp [runInit, PyModule_Create, hc]
    refine ⟨_, hm, (loaded_spec hrun hm).2.1, ?_, ?_⟩
    · intro j X hj hok
      obtain ⟨d, hd, hv⟩ := getattr_of_registered hrun hm hj hok
      rw [hv, Headers.value, hd]
    · intro X hX
      cases h : (runCalls R 0 (builtCalls w H) constants_module).getattr X with
      | none => rfl
      | some v =>
        obtain ⟨j, _, hj, hok, _⟩ := registered_of_getattr hrun hm h
        rw [hX j hj] at hok
        exact nomatch hok

/-- Witness of C9: the Linux 6.1 headers under a runtime whose first registration call
fails.  The module is returned all the same; it lacks `NETLINK_ROUTE`, the constant of
the failed call, and holds `NETLINK_UNUSED`, the constant of the call after it. -/
theorem init_null_iff_create_fails_witness :
    PyInit_constants 64 linux_6_1 Runtime.firstAddFails =
      Except.ok (runInit Runtime.firstAddFails (builtCalls 64 linux_6_1)) ∧
    (runInit Runtime.firstAddFails (builtCalls 64 linux_6_1)).registrations[0]? =
      some "NETLINK_ROUTE" ∧
    Runtime.firstAddFails.addOk 0 = false ∧
    ∃ m, (runInit Runtime.firstAddFails (builtCalls 64 linux_6_1)).ret = some m ∧
      m.getattr "NETLINK_ROUTE" = none ∧ m.getattr "NETLINK_UNUSED" = some 1 := by
  have h := init_null_iff_create_fails 64 linux_6_1 Runtime.firstAddFails _
    (PyInit_constants_linux_6_1 64 _)
  obtain ⟨m, hm, hreg, hok, hfail⟩ := h.2.2 rfl
  refine ⟨PyInit_constants_linux_6_1 64 _, by decide!, rfl, m, hm, ?_, ?_⟩
  · apply hfail
    intro j hj
    cases j with
    | zero => rfl
    | succ k =>
      exfalso
      rw [hreg] at hj
      have hdrop : (List.drop 1 (preprocess linux_6_1 PyInit_constants_body))[k]? =
          some "NETLINK_ROUTE" := by
        rw [List.getElem?_drop, Nat.add_comm]
        exact hj
      have hnot : "NETLINK_ROUTE" ∉ List.drop 1 (preprocess linux_6_1 PyInit_constants_body) := by
        decide!
      exact hnot (List.getElem?_mem hdrop)
  · have h1 := hok 1 "NETLINK_UNUSED" (by decide!) rfl
    rw [h1]
    decide!

theorem not_mem_preprocess_of_not_named {H : Headers} {src : List Item} {X : String}
    (h : ∀ it ∈ src, X ∉ it.names) : X ∉ preprocess H src := by
  intro hX
  obtain ⟨it, hit, hn⟩ := mem_preprocess.mp hX
  apply h it hit
  cases it with
  | addIntMacro n => simpa [Item.expand, Item.names] using hn
  | ifdef g ns =>
    simp only [Item.expand] at hn
    by_cases hg : ifdefTest H g = true
    · simpa [hg, Item.names] using hn
    · simp [hg] at hn

/-- C10: built against the Linux 6.1 headers, which declare the enumerator
`RTM_NEWVLAN` (112) and the macro `RTM_NEWNVLAN` standing for it, the module exports
`RTM_DELVLAN` (113) and `RTM_NEWNVLAN` (112) and has no attribute `RTM_NEWVLAN`:
for the suffix `VLAN` the name `RTM_DEL` + suffix is exported and `RTM_NEW` + suffix
is not.  No item of the source names `RTM_NEWVLAN`. -/
theorem vlan_del_exported_without_new :
    linux_6_1 "RTM_NEWVLAN" = some (Decl.enumerator 112) ∧
    PyInit_constants 64 linux_6_1 Runtime.allOk =
      Except.ok (runInit Runtime.allOk (builtCalls 64 linux_6_1)) ∧
    (runInit Runtime.allOk (builtCalls 64 linux_6_1)).ret = some linux_6_1_module ∧
    "RTM_DEL" ++ "VLAN" = "RTM_DELVLAN" ∧ "RTM_NEW" ++ "VLAN" = "RTM_NEWVLAN" ∧
    linux_6_1_module.getattr "RTM_DELVLAN" = some 113 ∧
    linux_6_1_module.getattr "RTM_NEWVLAN" = none ∧
    linux_6_1_module.getattr "RTM_NEWNVLAN" = some 112 ∧
    (∀ it ∈ PyInit_constants_body, "RTM_NEWVLAN" ∉ it.names) := by
  have hrun := PyInit_constants_linux_6_1 64 Runtime.allOk
  have hret := linux_6_1_module_ret
  have hno : ∀ it ∈ PyInit_constants_body, "RTM_NEWVLAN" ∉ it.names := by decide!
  refine ⟨by decide!, hrun, hret, by decide, by decide, ?_, ?_, ?_, hno⟩
  · rw [getattr_of_unguarded_value hrun hret (by decide!) (fun _ _ => rfl)]
    decide!
  · exact getattr_eq_none_of_not_registered hrun hret (not_mem_preprocess_of_not_named hno)
  · rw [getattr_of_unguarded_value hrun hret (by decide!) (fun _ _ => rfl)]
    decide!

theorem expand_sublist_names (H : Headers) (it : Item) : List.Sublist (it.expand H) it.names := by
  cases it with
  | addIntMacro n => exact List.Sublist.refl _
  | ifdef g ns =>
    simp only [Item.expand, Item.names]
    by_cases hg : ifdefTest H g = true
    · rw [if_pos hg]
    · rw [if_neg hg]
      exact List.nil_sublist _

theorem preprocess_sublist_allNames (H : Headers) (src : List Item) :
    List.Sublist (preprocess H src) (allNames src) := by
  induction src with
  | nil => exact List.Sublist.refl _
  | cons it rest ih => exact (expand_sublist_names H it).append ih

/-- The 378 identifiers named in the body are pairwise distinct. -/
theorem allNames_nodup : (allNames PyInit_constants_body).Nodup :=
  List.Nodup.of_map nameKey (by decide!)

theorem preprocess_nodup (H : Headers) : (preprocess H PyInit_constants_body).Nodup :=
  (allNames_nodup).sublist (preprocess_sublist_allNames H _)

theorem runCalls_allOk_getattr (f : String → Int) (ns : List String) (X : String) :
    (runCalls Runtime.allOk 0 (ns.map (fun n => (n, f n))) constants_module).getattr X =
      if X ∈ ns then some (f X) else none := by
  by_cases hX : X ∈ ns
  · rw [if_pos hX]
    obtain ⟨j, hj⟩ := List.getElem?_of_mem hX
    exact runCalls_getattr_of_ok Runtime.allOk f ns 0 _ X j hj rfl
  · rw [if_neg hX]
    cases h : (runCalls Runtime.allOk 0 (ns.map (fun n => (n, f n))) constants_module).getattr X with
    | none => rfl
    | some v =>
      rcases runCalls_getattr_some Runtime.allOk f ns 0 _ X v h with h0 | ⟨_, j, hj, _⟩
      · rw [getattr_constants_module] at h0
        exact nomatch h0
      · exact absurd (List.getElem?_mem hj) hX

theorem calls_of_perm_builtCalls {w : Nat} {H : Headers} {cs : List (String × Int)}
    (hp : cs.Perm (builtCalls w H)) :
    cs = (cs.map Prod.fst).map (fun n => (n, toLong w (H.value n))) := by
  rw [List.map_map]
  have hall : ∀ c ∈ cs, ((fun n => (n, toLong w (H.value n))) ∘ Prod.fst) c = c := by
    intro c hc
    have hmem := hp.mem_iff.mp hc
    obtain ⟨n, _, rfl⟩ := List.mem_map.mp hmem
    rfl
  conv_lhs => rw [← List.map_id cs]
  exact (List.map_congr_left hall).symm

/-- C11: the identifiers named in the source are pairwise distinct, so under every
header set the names left by the preprocessor, and hence the names `PyInit_constants`
passes to the registration calls, are pairwise distinct: a name is registered at one
position only; when the call for a name is reached the module holds no attribute of that
name yet, so the call overwrites nothing; and running the compiled calls in any other
order (every call succeeding) leaves the same value under every name. -/
theorem registrations_pairwise_distinct (w : Nat) (H : Headers) (R : Runtime) (o : Outcome)
    (hrun : PyInit_constants w H R = Except.ok o) :
    (allNames PyInit_constants_body).Nodup ∧
    (∀ H2 : Headers, (preprocess H2 PyInit_constants_body).Nodup) ∧
    o.registrations.Nodup ∧
    (∀ (i j : Nat) (X : String),
      o.registrations[i]? = some X → o.registrations[j]? = some X → i = j) ∧
    (∀ (j : Nat) (X : String), o.registrations[j]? = some X →
      (runCalls R 0 ((builtCalls w H).take j) constants_module).getattr X = none) ∧
    (∀ cs : List (String × Int), cs.Perm (builtCalls w H) → ∀ X,
      (runCalls Runtime.allOk 0 cs constants_module).getattr X =
        (runCalls Runtime.allOk 0 (builtCalls w H) constants_module).getattr X) := by
  obtain ⟨_, ho⟩ := PyInit_constants_eq_ok_iff.mp hrun
  have hsub : List.Sublist o.registrations (preprocess H PyInit_constants_body) := by
    subst ho
    unfold runInit PyModule_Create
    cases R.createOk with
    | false => exact List.nil_sublist _
    | true => simp [builtCalls, Function.comp_def]
  have hnd : o.registrations.Nodup := (preprocess_nodup H).sublist hsub
  have hinj : ∀ (i j : Nat) (X : String),
      o.registrations[i]? = some X → o.registrations[j]? = some X → i = j := by
    intro i j X hi hj
    have hlt : i < o.registrations.length := by
      by_contra hge
      rw [List.getElem?_eq_none (by omega)] at hi
      exact nomatch hi
    exact List.getElem?_inj hlt hnd (hi.trans hj.symm)
  refine ⟨allNames_nodup, preprocess_nodup, hnd, hinj, ?_, ?_⟩
  · intro j X hj
    have hreg : o.registrations = preprocess H PyInit_constants_body := by
      subst ho
      unfold runInit PyModule_Create at hj ⊢
      cases hc : R.createOk with
      | false => simp [hc] at hj
      | true => simp [builtCalls, Function.comp_def]
    cases h : (runCalls R 0 ((builtCalls w H).take j) constants_module).getattr X with
    | none => rfl
    | some v =>
      exfalso
      have htake : (builtCalls w H).take j =
          ((preprocess H PyInit_constants_body).take j).map
            (fun n => (n, toLong w (H.value n))) := by
        simp [builtCalls, List.map_take]
      rw [htake] at h
      rcases runCalls_getattr_some R (fun n => toLong w (H.value n)) _ 0 _ X v h with
        h0 | ⟨_, i, hi, _⟩
      · rw [getattr_constants_module] at h0
        exact nomatch h0
      · rw [List.getElem?_take] at hi
        by_cases hlt : i < j
        · rw [if_pos hlt, ← hreg] at hi
          have := hinj i j X hi hj
          omega
        · rw [if_neg hlt] at hi
          exact nomatch hi
  · intro cs hp X
    have hcs := calls_of_perm_builtCalls hp
    have hmem : X ∈ cs.map Prod.fst ↔ X ∈ preprocess H PyInit_constants_body := by
      rw [(hp.map Prod.fst).mem_iff]
      simp [builtCalls, Function.comp_def]
    rw [hcs, runCalls_allOk_getattr]
    unfold builtCalls
    rw [runCalls_allOk_getattr]
    by_cases hX : X ∈ preprocess H PyInit_constants_body
    · rw [if_pos (hmem.mpr hX), if_pos hX]
    · rw [if_neg (fun h => hX (hmem.mp h)), if_neg hX]

/-- Witness of C11: the Linux 6.1 headers, every call succeeding; 371 calls are made,
under 371 distinct names. -/
theorem registrations_pairwise_distinct_witness :
    PyInit_constants 64 linux_6_1 Runtime.allOk =
      Except.ok (runInit Runtime.allOk (builtCalls 64 linux_6_1)) ∧
    (runInit Runtime.allOk (builtCalls 64 linux_6_1)).registrations.length = 371 ∧
    (runInit Runtime.allOk (builtCalls 64 linux_6_1)).registrations.Nodup :=
  ⟨PyInit_constants_linux_6_1 64 _, by decide!,
    (registrations_pairwise_distinct 64 linux_6_1 Runtime.allOk _
      (PyInit_constants_linux_6_1 64 _)).2.2.1⟩

end Routesia
